import Mathlib

/-!
Verification development for the question-answering API handler of the
powervisualize repository.  The TypeScript source (the `/api/ask` handler and
its helpers) is shallowly embedded below: strings are modelled as `String`
(operated on through their underlying `List Char`, which keeps every
definition kernel-computable), JavaScript numbers that hold timestamps or
counters are modelled as `Nat` (scores that can go negative as `Int`), and
fallible or optional JavaScript values as `Option`.  Database query results
and the external generator reply are inputs of the model (the handler treats
them as opaque data); every in-process computation on them (ranking,
filtering, moderation, trace construction, response assembly) is translated
from the source.
-/

namespace PV

/-- Characters are compared and classified exactly as the ASCII source data
requires.  JavaScript regex `\w` is `[A-Za-z0-9_]`; Lean `Char.isAlpha` and
`Char.isDigit` are the same ASCII classes. -/
def isWordChar (c : Char) : Bool := c.isAlpha || c.isDigit || c = '_'

/-- ASCII lower-casing, the fragment of `String.prototype.toLowerCase`
exercised by the data in this repository. -/
def lowerChar (c : Char) : Char :=
  if 'A' ≤ c && c ≤ 'Z' then Char.ofNat (c.toNat + 32) else c

def lowerL (s : List Char) : List Char := s.map lowerChar

def lowerS (s : String) : String := ⟨lowerL s.data⟩

/-- `t` is a prefix of `s` (character-wise). -/
def isPrefixL : List Char → List Char → Bool
  | [], _ => true
  | _ :: _, [] => false
  | a :: t, b :: s => a = b && isPrefixL t s

/-- Strip the literal prefix `t` from `s`. -/
def stripL : List Char → List Char → Option (List Char)
  | [], s => some s
  | _ :: _, [] => none
  | a :: t, b :: s => if a = b then stripL t s else none

/-- Substring containment, the model of JavaScript `String.prototype.includes`
(the empty pattern is contained in everything). -/
def containsL (t : List Char) : List Char → Bool
  | [] => isPrefixL t []
  | s@(_ :: s') => isPrefixL t s || containsL t s'

def containsS (s pat : String) : Bool := containsL pat.data s.data

/-- JavaScript `String.prototype.trim`: drop whitespace at both ends. -/
def trimL (s : List Char) : List Char :=
  ((s.dropWhile Char.isWhitespace).reverse.dropWhile Char.isWhitespace).reverse

def trimS (s : String) : String := ⟨trimL s.data⟩

/-!
### Regex fragment

Every regular expression in the handler is an alternation, wrapped in word
boundaries, of sequences of literals joined by `.*` or `\s+` (plus a few fully
anchored patterns that are modelled separately).  An `Alt` is one alternative:
its leading literal and the remaining `(separator, literal)` segments.  All
alternatives in the source start and end with a `\w` character, so the `\b`
conditions reduce to: the character before the match (if any) is not a word
character, and the character after the match (if any) is not a word
character.  `.*` matches any run of non-newline characters; `\s+` matches one
or more whitespace characters; `test` semantics is existence of a match, so
greediness is irrelevant.
-/

inductive GSep where
  | gap : GSep
  | wsPlus : GSep
deriving DecidableEq

structure Alt where
  first : List Char
  rest : List (GSep × List Char)

/-- The `\b` condition after a match ending in a word character. -/
def boundaryAfter : List Char → Bool
  | [] => true
  | c :: _ => !isWordChar c

/-- The `\b` condition before a match starting with a word character. -/
def boundaryBefore : Option Char → Bool
  | none => true
  | some c => !isWordChar c

/-- Scan for `.*lit` and continue with `k`: try the literal at every position
reachable without crossing a newline. -/
def scanGap (lit : List Char) (k : List Char → Bool) : List Char → Bool
  | [] =>
    (match stripL lit [] with
     | some s2 => k s2
     | none => false)
  | c :: s =>
    (match stripL lit (c :: s) with
     | some s2 => k s2
     | none => false)
    || (c ≠ '\n' && scanGap lit k s)

/-- Scan for `\s*lit` and continue with `k` (used after one mandatory
whitespace character for `\s+lit`). -/
def scanWs (lit : List Char) (k : List Char → Bool) : List Char → Bool
  | [] =>
    (match stripL lit [] with
     | some s2 => k s2
     | none => false)
  | c :: s =>
    (match stripL lit (c :: s) with
     | some s2 => k s2
     | none => false)
    || (c.isWhitespace && scanWs lit k s)

/-- Match the remaining segments of one alternative, then the trailing `\b`. -/
def matchSegs : List (GSep × List Char) → List Char → Bool
  | [], s => boundaryAfter s
  | (GSep.gap, lit) :: rest, s => scanGap lit (fun s2 => matchSegs rest s2) s
  | (GSep.wsPlus, lit) :: rest, s =>
    match s with
    | [] => false
    | c :: s2 => c.isWhitespace && scanWs lit (fun s3 => matchSegs rest s3) s2

/-- Match one alternative at the current position. -/
def altAt (a : Alt) (s : List Char) : Bool :=
  match stripL a.first s with
  | some s2 => matchSegs a.rest s2
  | none => false

/-- Search an alternative at every position, tracking the previous character
for the leading `\b`. -/
def scanStart (a : Alt) : Option Char → List Char → Bool
  | prev, s =>
    (boundaryBefore prev && altAt a s)
    || (match s with
        | [] => false
        | c :: s2 => scanStart a (some c) s2)

/-- `RegExp.prototype.test` for a word-bounded alternation. -/
def regexTest (alts : List Alt) (s : String) : Bool :=
  alts.any (fun a => scanStart a none s.data)

/-- One-literal alternative `\b lit \b`. -/
def lit1 (w : String) : Alt := ⟨w.data, []⟩

/-- Alternative `\b a .* b \b`. -/
def gp2 (a b : String) : Alt := ⟨a.data, [(GSep.gap, b.data)]⟩

/-- Alternative `\b a .* b .* c \b`. -/
def gp3 (a b c : String) : Alt :=
  ⟨a.data, [(GSep.gap, b.data), (GSep.gap, c.data)]⟩

/-- Alternative `\b a .* b .* c .* d \b`. -/
def gp4 (a b c d : String) : Alt :=
  ⟨a.data, [(GSep.gap, b.data), (GSep.gap, c.data), (GSep.gap, d.data)]⟩

/-- Alternative `\b a \s+ b \b`. -/
def wp2 (a b : String) : Alt := ⟨a.data, [(GSep.wsPlus, b.data)]⟩

/-- Alternative `\b a \s+ b \s+ c \b`. -/
def wp3 (a b c : String) : Alt :=
  ⟨a.data, [(GSep.wsPlus, b.data), (GSep.wsPlus, c.data)]⟩

/-!
### Intent classification (source: classifyIntent)
-/

inductive Intent where
  | ACKNOWLEDGEMENT : Intent
  | PROFESSIONAL : Intent
  | PERSONAL : Intent
  | FAST_PATH_PROFESSIONAL : Intent
  | MADISON : Intent
  | WORK_STYLE : Intent
  | PAGE_CONTEXT : Intent
  | PERSONALITY : Intent
deriving DecidableEq

/-- First page-context pattern: fully anchored alternation, i.e. equality
with one of these strings. -/
def pageCtxExact : List String :=
  ["what page am i on", "where am i", "what is this page",
   "what project is this", "tell me about this page"]

def pageCtxAlts : List Alt :=
  [lit1 "what page", lit1 "where am i", lit1 "what is this",
   lit1 "tell me about this page", lit1 "what project is this"]

def personalityAlts1 : List Alt :=
  [lit1 "does ryan like", lit1 "does ryan enjoy", lit1 "does ryan love",
   gp2 "ryan" "favorite", gp2 "ryan" "favourite", gp2 "ryan" "hobby",
   gp2 "ryan" "hobbies", gp2 "ryan" "interest", gp2 "ryan" "interests"]

def personalityAlts2 : List Alt :=
  [lit1 "what does ryan like", gp3 "what" "ryan" "favorite",
   gp3 "what" "ryan" "enjoy", gp3 "what" "ryan" "love"]

def personalityAlts3 : List Alt :=
  [lit1 "does he like", lit1 "does he enjoy", lit1 "does he love",
   lit1 "what does he like", gp3 "what" "he" "favorite"]

def personalityAlts4 : List Alt :=
  [lit1 "favorite movie", lit1 "favourite movie", lit1 "favorite movies",
   lit1 "favourite movies", gp2 "what" "favorite", gp2 "what" "favourite"]

def personalityAlts5 : List Alt :=
  [lit1 "snowboarding", lit1 "skiing", lit1 "food", lit1 "movies",
   lit1 "movie", lit1 "drinks", lit1 "music", lit1 "sports", lit1 "travel",
   gp2 "lord" "ring", gp2 "lord" "rings", lit1 "lotr"]

def madisonMarkers : List String :=
  ["madison larocca", "madison avery", "this is madison"]

/-- First acknowledgement pattern: anchored, i.e. string equality. -/
def ackExact : List String :=
  ["ok", "okay", "cool", "thanks", "thank you", "got it", "sounds good",
   "nice", "alright", "sure", "yep", "yeah", "yes", "no", "nope"]

/-- Tokens of the second acknowledgement pattern
`^(tok)\s*[.!?]*$` (note: without yes, no, nope). -/
def ackTokens : List String :=
  ["ok", "okay", "cool", "thanks", "thank you", "got it", "sounds good",
   "nice", "alright", "sure", "yep", "yeah"]

/-- Anchored tail `[.!?]*$`. -/
def puncTail : List Char → Bool
  | [] => true
  | c :: s => (c = '.' || c = '!' || c = '?') && puncTail s

/-- Anchored tail `\s*[.!?]*$`. -/
def ackTail : List Char → Bool
  | [] => true
  | c :: s => if c.isWhitespace then ackTail s else puncTail (c :: s)

def ackPunct (s : List Char) : Bool :=
  ackTokens.any (fun t =>
    match stripL t.data s with
    | some r => ackTail r
    | none => false)

/-- Helper: all alternatives `\b subj \s+ pred \b` for the fast-path and
work-style patterns, where a predicate is its leading literal plus further
segments. -/
def crossWp (subjects : List String)
    (preds : List (String × List (GSep × List Char))) : List Alt :=
  subjects.flatMap (fun su =>
    preds.map (fun pr => Alt.mk su.data ((GSep.wsPlus, pr.1.data) :: pr.2)))

def fpPreds1 : List (String × List (GSep × List Char)) :=
  [("test", []), ("validate", []),
   ("use", [(GSep.gap, ("best" : String).data), (GSep.gap, ("practice" : String).data)]),
   ("follow", [(GSep.gap, ("practice" : String).data)]),
   ("good at", []), ("expert", []), ("senior", []), ("use", []),
   ("know", []), ("have", [])]

def fpAlts1 : List Alt :=
  crossWp ["does ryan", "is ryan", "can ryan", "has ryan"] fpPreds1

def fpAlts2 : List Alt :=
  crossWp ["is ryan", "does ryan", "can ryan"]
    [("senior", []), ("expert", []), ("good", []), ("skilled", []), ("experienced", [])]

def fpAlts3 : List Alt :=
  crossWp ["does ryan", "is ryan"]
    [("test", []), ("validate", []), ("quality", []), ("governance", []),
     ("best practice", [])]

def wsAlts1 : List Alt :=
  [gp2 "like" "work", gp2 "enjoy" "work", gp2 "passionate" "work",
   lit1 "motivated", gp2 "what" "motivate", gp2 "what" "drive",
   gp2 "work" "ethic", gp2 "likes" "job", gp2 "enjoy" "job",
   gp2 "love" "work", gp2 "passion" "data", gp2 "enjoy" "data"]

def wsAlts2 : List Alt :=
  (["does ryan", "is ryan"] : List String).flatMap (fun a =>
    (["like", "enjoy", "love", "passionate", "motivated"] : List String).flatMap (fun b =>
      (["work", "working", "job", "data", "engineering"] : List String).map
        (fun c => wp3 a b c)))

def wsAlts3 : List Alt :=
  [gp2 "why" "ryan", gp3 "what" "ryan" "do", gp3 "what" "ryan" "like",
   gp2 "ryan" "motivation", gp2 "ryan" "drive"]

def perAlts1 : List Alt :=
  [lit1 "family", lit1 "wife", lit1 "husband", lit1 "kids", lit1 "children",
   lit1 "hobby", lit1 "hobbies", gp2 "personal" "life",
   gp2 "opinion" "politics", gp2 "believe" "religion",
   gp2 "think about" "family", gp2 "feel about" "relationship"]

def perAlts2 : List Alt :=
  [gp4 "what" "ryan" "like" "personally", gp3 "who" "ryan" "personally",
   gp3 "ryan" "personality" "personal", gp3 "ryan" "personal" "life"]

def perAlts3 : List Alt :=
  [lit1 "cousins", lit1 "siblings", lit1 "parents", lit1 "dating",
   gp2 "relationship" "status"]

/-- Source: classifyIntent.  The `history` argument of the source is unused
there and omitted.  Page context is passed as presence only (the source only
tests `pageContext` for truthiness inside this function). -/
def classifyIntent (question : String) (pcPresent : Bool) : Intent :=
  let lower := trimS (lowerS question)
  if (pageCtxExact.any (fun p => lower == p) || regexTest pageCtxAlts lower)
      || (pcPresent && (containsS lower "page" || containsS lower "where am i"
            || containsS lower "what is this")) then
    Intent.PAGE_CONTEXT
  else if regexTest personalityAlts1 lower || regexTest personalityAlts2 lower
      || regexTest personalityAlts3 lower || regexTest personalityAlts4 lower
      || regexTest personalityAlts5 lower then
    Intent.PERSONALITY
  else if madisonMarkers.any (fun m => containsS lower m) then
    Intent.MADISON
  else if ackExact.any (fun p => lower == p) || ackPunct lower.data then
    Intent.ACKNOWLEDGEMENT
  else if (regexTest fpAlts1 lower || regexTest fpAlts2 lower
      || regexTest fpAlts3 lower) && question.length < 100 then
    Intent.FAST_PATH_PROFESSIONAL
  else if regexTest wsAlts1 lower || regexTest wsAlts2 lower
      || regexTest wsAlts3 lower then
    Intent.WORK_STYLE
  else if (regexTest perAlts1 lower || regexTest perAlts2 lower
      || regexTest perAlts3 lower)
      && !containsS lower "skill" && !containsS lower "work"
      && !containsS lower "data" then
    Intent.PERSONAL
  else
    Intent.PROFESSIONAL

/-!
### Content moderation (source: checkContentModeration)
-/

inductive ModOutcome where
  | ok : ModOutcome
  | strike : ModOutcome
  | warn : ModOutcome
deriving DecidableEq

def sexualAlts1 : List Alt :=
  [lit1 "sex", lit1 "sexual", lit1 "nude", lit1 "naked", lit1 "porn",
   lit1 "pornography", lit1 "erotic", lit1 "orgasm", lit1 "masturbat",
   lit1 "penis", lit1 "vagina", lit1 "breast", lit1 "ass", lit1 "butt",
   lit1 "dick", lit1 "cock", lit1 "pussy"]

def sexualAlts2 : List Alt :=
  [lit1 "fuck", lit1 "fucking", lit1 "shit", lit1 "damn", lit1 "bitch",
   lit1 "asshole"]

def harassAlts1 : List Alt :=
  [lit1 "kill", lit1 "murder", lit1 "violence", lit1 "threat", lit1 "harm",
   lit1 "hurt", lit1 "attack"]

def harassAlts2 : List Alt :=
  [lit1 "hate", lit1 "racist", lit1 "nazi", lit1 "slur"]

def careerKeywords : List String :=
  ["skill", "project", "experience", "ryan", "power bi", "python", "sql",
   "azure", "synapse", "data", "analytics", "engineering", "modeling",
   "dashboard", "portfolio", "github", "repo", "a/b", "testing",
   "geospatial", "react", "vite", "tailwind", "devops", "ci/cd"]

def offTopicAlts1 : List Alt :=
  [lit1 "weather", lit1 "sports", lit1 "politics", lit1 "religion",
   lit1 "cooking", lit1 "recipe", lit1 "movie", lit1 "music", lit1 "game",
   lit1 "gaming"]

def offTopicTokens : List String :=
  ["hi", "hello", "hey", "what", "who", "when", "where", "why", "how"]

/-- Anchored tail `[^?]*\?$`: a nonempty remainder ending in the only
question mark. -/
def qTail : List Char → Bool
  | [] => false
  | [c] => c = '?'
  | c :: s => c ≠ '?' && qTail s

/-- Second off-topic pattern `^(tok)\s+[^?]*\?$`: one mandatory whitespace
character (further whitespace is absorbed by the `[^?]*`). -/
def offTopicAnchored (s : List Char) : Bool :=
  offTopicTokens.any (fun t =>
    match stripL t.data s with
    | some r =>
      (match r with
       | [] => false
       | c :: r2 => c.isWhitespace && qTail r2)
    | none => false)

/-- Source: checkContentModeration.  Only the `allowed`/`severity` fields are
observed by the handler; the `reason` string is not modelled. -/
def checkContentModeration (question : String) : ModOutcome :=
  let lower := lowerS question
  if madisonMarkers.any (fun m => containsS lower m) then
    ModOutcome.ok
  else if regexTest sexualAlts1 lower || regexTest sexualAlts2 lower then
    ModOutcome.strike
  else if regexTest harassAlts1 lower || regexTest harassAlts2 lower then
    ModOutcome.strike
  else
    let hasCareerKeyword := careerKeywords.any (fun k => containsS lower k)
    if !hasCareerKeyword && question.length > 20 then
      if regexTest offTopicAlts1 lower || offTopicAnchored lower.data then
        ModOutcome.warn
      else ModOutcome.ok
    else ModOutcome.ok

/-!
### Small helper predicates of the ranking and retrieval code
-/

/-- Source: isAssistantQuestion. -/
def assistantAlts : List Alt :=
  [lit1 "ryagent", lit1 "assistant", lit1 "chatbot", lit1 "openai",
   wp2 "ai" "assistant", wp2 "portfolio" "assistant"]

def isAssistantQuestion (question : String) : Bool :=
  regexTest assistantAlts (lowerS question)

/-- Source: isPlatformSkill (substring containment, no word boundaries). -/
def platformSkillNames : List String :=
  ["microsoft fabric", "fabric", "power bi", "pbi", "dax", "power query",
   "m query", "sql", "t-sql", "azure synapse", "synapse", "semantic model",
   "semantic models"]

def isPlatformSkill (skill : String) : Bool :=
  platformSkillNames.any (fun ps => containsS (lowerS skill) ps)

/-- Source: the isDbtQuestion regex inside rankProjects. -/
def dbtAlts : List Alt := [lit1 "dbt", lit1 "data build tool"]

def isDbtQuestion (question : String) : Bool :=
  regexTest dbtAlts (lowerS question)

/-- Source: the isPersonalityQuestion regex in the database section of the
handler (tested against the lower-cased question). -/
def personalityQAlts : List Alt :=
  [lit1 "favorite", lit1 "favorites", lit1 "like", lit1 "likes",
   lit1 "enjoy", lit1 "enjoys", lit1 "hobby", lit1 "hobbies",
   lit1 "interest", lit1 "interests", lit1 "value", lit1 "values",
   lit1 "personality", lit1 "personal", lit1 "preference",
   lit1 "preferences", lit1 "what does ryan", lit1 "what\x27s ryan",
   lit1 "ryan\x27s favorite", lit1 "ryan likes", lit1 "ryan enjoys"]

def isPersonalityQuestion (lowerQuestion : String) : Bool :=
  regexTest personalityQAlts lowerQuestion

/-!
### Abuse guard (source: rateLimit, checkStrikes, addStrike)

Timestamps are `Nat` milliseconds.  The per-client map entries are threaded
explicitly: each function receives the entry for the requesting client and
returns the result together with the updated entry.  `RATE_WINDOW_MS` is
600000, `RATE_MAX` is 20, `LOCKOUT_DURATION_MS` is 900000.
-/

structure RateEntry where
  count : Nat
  resetAt : Nat
deriving DecidableEq

inductive RateResult where
  | ok : RateResult
  | tooMany : Nat → RateResult
deriving DecidableEq

/-- Source: rateLimit.  `Math.ceil((resetAt - now) / 1000)` for the in-window
case (`now ≤ resetAt`) is `(resetAt - now + 999) / 1000` in `Nat`. -/
def rateLimit (e : Option RateEntry) (now : Nat) : RateResult × Option RateEntry :=
  match e with
  | none => (RateResult.ok, some ⟨1, now + 600000⟩)
  | some en =>
    if now > en.resetAt then
      (RateResult.ok, some ⟨1, now + 600000⟩)
    else
      let c := en.count + 1
      if c > 20 then
        (RateResult.tooMany (max 1 ((en.resetAt - now + 999) / 1000)),
          some ⟨c, en.resetAt⟩)
      else
        (RateResult.ok, some ⟨c, en.resetAt⟩)

structure StrikeEntry where
  strikes : Nat
  lastStrikeAt : Nat
  lockedUntil : Option Nat
deriving DecidableEq

/-- What checkStrikes and addStrike return to the handler (the
`lockedUntil` field is `some` exactly when the source object carries a truthy
`lockedUntil`). -/
structure StrikeCheck where
  strikes : Nat
  lockedUntil : Option Nat
deriving DecidableEq

/-- Source: checkStrikes.  A JavaScript `lockedUntil` of `0` is falsy; the
branch keeping an entry with `lockedUntil = 0` is the final fall-through
(addStrike never produces such an entry, but the translation keeps the
case). -/
def checkStrikes (e : Option StrikeEntry) (now : Nat) :
    StrikeCheck × Option StrikeEntry :=
  match e with
  | none => (⟨0, none⟩, none)
  | some en =>
    match en.lockedUntil with
    | some l =>
      if l ≠ 0 ∧ now < l then
        (⟨en.strikes, some l⟩, some en)
      else if l ≠ 0 ∧ l ≤ now then
        (⟨0, none⟩, some ⟨0, 0, none⟩)
      else
        (⟨en.strikes, none⟩, some en)
    | none => (⟨en.strikes, none⟩, some en)

/-- Source: addStrike. -/
def addStrike (e : Option StrikeEntry) (now : Nat) :
    StrikeCheck × Option StrikeEntry :=
  let en := e.getD ⟨0, 0, none⟩
  let s := en.strikes + 1
  let lu := if s ≥ 3 then some (now + 900000) else en.lockedUntil
  (⟨s, lu⟩, some ⟨s, now, lu⟩)

/-!
### Project ranking (source: categorizeProject, rankProjects)
-/

structure RankCand where
  project_id : String
  slug : String
  name : String
  proof_weight : Option Nat
deriving DecidableEq

/-- The fct_project_counts row for a project; the source reads each field
with `|| 0`, so absent fields are already normalised to 0 here. -/
structure Counts where
  dashboard_pages : Nat
  project_pages : Nat
  skills_count : Nat
deriving DecidableEq

inductive PCategory where
  | dashboard : PCategory
  | project : PCategory
  | meta : PCategory
deriving DecidableEq

/-- Source: categorizeProject. -/
def categorizeProject (slug : String) (counts : Counts) : PCategory :=
  if slug == "ryagent" then PCategory.meta
  else if counts.dashboard_pages > 0 then PCategory.dashboard
  else if counts.project_pages > 0 then PCategory.project
  else PCategory.project

/-- JavaScript `x || d` on an optional number: `0` and absent both fall back
to the default. -/
def jsOrNat (o : Option Nat) (dflt : Nat) : Nat :=
  match o with
  | some n => if n = 0 then dflt else n
  | none => dflt

structure Ranked extends RankCand where
  rank_score : Int
deriving DecidableEq

/-- The body of the `candidates.map` in rankProjects. -/
def scoreCandidate (isPlatform isAssistantQ isDbtQ : Bool)
    (countsMap : String → Option Counts) (c : RankCand) : Ranked :=
  let counts := (countsMap c.project_id).getD ⟨0, 0, 0⟩
  let category := categorizeProject c.slug counts
  let proofWeight := jsOrNat c.proof_weight 3
  let skillsCount := counts.skills_count
  let categoryWeight : Int :=
    if isPlatform then
      if category = PCategory.dashboard then 100
      else if category = PCategory.project then 50 else 0
    else
      if category = PCategory.project then 100
      else if category = PCategory.dashboard then 50 else 0
  let ryagentPenalty : Int :=
    if c.slug == "ryagent" && !isAssistantQ && !isDbtQ then
      if isPlatform then -200 else -100
    else 0
  let ryagentBonus : Int :=
    if c.slug == "ryagent" && isDbtQ then 200 else 0
  { toRankCand := c,
    rank_score := categoryWeight + (proofWeight : Int) * 10 + (skillsCount : Int)
      + ryagentPenalty + ryagentBonus }

/-- Descending order on rank scores.  The source sorts with the comparator
`(a, b) => b.rank_score - a.rank_score`, a stable descending sort; Mathlib
insertionSort with this relation is the same stable descending sort. -/
def rankRel (a b : Ranked) : Prop := b.rank_score ≤ a.rank_score

instance : DecidableRel rankRel := fun a b =>
  inferInstanceAs (Decidable (b.rank_score ≤ a.rank_score))

instance : IsTotal Ranked rankRel :=
  ⟨fun a b => le_total b.rank_score a.rank_score⟩

instance : IsTrans Ranked rankRel :=
  ⟨fun _ _ _ hab hbc => le_trans hbc hab⟩

/-- Source: rankProjects. -/
def rankProjects (candidates : List RankCand) (countsMap : String → Option Counts)
    (skill : Option String) (question : String) : List Ranked :=
  let isAssistantQ := isAssistantQuestion question
  let isPlatform := match skill with
    | some s => isPlatformSkill s
    | none => false
  let isDbtQ := isDbtQuestion question
  (candidates.map (scoreCandidate isPlatform isAssistantQ isDbtQ countsMap)).insertionSort
    rankRel

/-!
### Skill detection (source: the stg_skills matching query in the handler)

The SQL query selects the skills whose lower-cased name or any lower-cased
alias is contained in the lower-cased question, computes
`match_score = greatest(name hit, coalesce(max(alias hit), 0))`, orders by
`match_score desc, length(name) desc` and takes one row.  SQL leaves the
order of rows that tie on both keys unspecified; the model resolves such
ties in favour of the earliest row, and every theorem or concrete instance
below either tolerates or avoids ties.
-/

structure SkillRow where
  name : String
  aliases : List String
deriving DecidableEq

def skillNameMatches (lowerQ : String) (s : SkillRow) : Bool :=
  containsS lowerQ (lowerS s.name)

def skillAliasMatches (lowerQ : String) (s : SkillRow) : Bool :=
  s.aliases.any (fun a => containsS lowerQ (lowerS a))

def skillWhereMatches (lowerQ : String) (s : SkillRow) : Bool :=
  skillNameMatches lowerQ s || skillAliasMatches lowerQ s

def skillMatchScore (lowerQ : String) (s : SkillRow) : Nat :=
  max (if skillNameMatches lowerQ s then 1 else 0)
    (if skillAliasMatches lowerQ s then 1 else 0)

/-- Is `b` strictly better than `a` under
`order by match_score desc, length(name) desc`. -/
def betterSkill (lowerQ : String) (a b : SkillRow) : Bool :=
  decide (skillMatchScore lowerQ a < skillMatchScore lowerQ b)
  || (decide (skillMatchScore lowerQ b = skillMatchScore lowerQ a)
      && decide (a.name.length < b.name.length))

/-- The row `order by match_score desc, length(name) desc limit 1` returns:
a row no other row strictly beats, tie-broken in favour of earlier rows. -/
def pickTop (lowerQ : String) : List SkillRow → Option SkillRow
  | [] => none
  | r :: rs =>
    match pickTop lowerQ rs with
    | none => some r
    | some a => if betterSkill lowerQ r a then some a else some r

/-- Source: the skill-detection query plus the
`rows.length > 0 && rows[0].match_score > 0` check in the handler. -/
def detectSkillQuery (skills : List SkillRow) (lowerQ : String) : Option String :=
  let rows := skills.filter (skillWhereMatches lowerQ)
  match pickTop lowerQ rows with
  | some top => if skillMatchScore lowerQ top > 0 then some top.name else none
  | none => none

/-- `order by length(name) desc limit 1`, ties in favour of earlier rows. -/
def pickLongestName : List SkillRow → Option SkillRow
  | [] => none
  | r :: rs =>
    match pickLongestName rs with
    | none => some r
    | some a => if r.name.length < a.name.length then some a else some r

/-- Source: the fabric and dbt fuzzy fallback queries
(`where lower(name) like pattern order by length(name) desc limit 1`). -/
def fuzzyNameLookup (skills : List SkillRow) (pat : String) : Option String :=
  (pickLongestName (skills.filter (fun s => containsS (lowerS s.name) pat))).map
    (fun r => r.name)

/-- Modelled from the claim text of C5, for refinement comparison only (it is
not code of the repository): select preferring exact name containment over
alias containment, and among skills tied at the same preference level select
a longest-named one. -/
def specDetectSkillC5 (skills : List SkillRow) (lowerQ : String) : Option String :=
  let nameRows := skills.filter (skillNameMatches lowerQ)
  let aliasRows := skills.filter (skillAliasMatches lowerQ)
  match pickLongestName nameRows with
  | some top => some top.name
  | none => (pickLongestName aliasRows).map (fun r => r.name)

/-!
### Response payloads (source: AskResponse type, safeErrorResponse, and the
canned responses)
-/

structure Link where
  title : String
  url : String
deriving DecidableEq

structure MetaInfo where
  blocked : Option Bool
  locked_until : Option Nat
  strikes : Option Nat
  fast_path : Option Bool
  intent : Option Intent
  sources_used : Option (List String)
  matched_skill_name : Option String
  matched_project_slugs : Option (List String)
deriving DecidableEq

def noMeta : MetaInfo := ⟨none, none, none, none, none, none, none, none⟩

structure AskResponse where
  answer : String
  skills_confirmed : List String
  evidence_links : List Link
  missing_info : List String
  trace : Option (List String)
  meta : Option MetaInfo
deriving DecidableEq

/-- Source: safeErrorResponse (`trace: trace || []` always yields an array,
`meta` is spread in only when given). -/
def safeErrorResponse (message : String) (m : Option MetaInfo)
    (trace : Option (List String)) : AskResponse :=
  ⟨message, [], [], [], some (trace.getD []), m⟩

def natS (n : Nat) : String := Nat.repr n

/-- The `${n > 1 ? "s" : ""}` plural suffix. -/
def plural (n : Nat) : String := if n > 1 then "s" else ""

/-- The `${n !== 1 ? "s" : ""}` plural suffix. -/
def pluralNe1 (n : Nat) : String := if n ≠ 1 then "s" else ""

/-- `Array.prototype.join(", ")`. -/
def joinComma : List String → String
  | [] => ""
  | [x] => x
  | x :: xs => x ++ ", " ++ joinComma xs

/-- `Array.from(new Set(xs))`: keep the first occurrence of each element. -/
def dedupFirst (l : List String) : List String :=
  l.foldl (fun acc x => if x ∈ acc then acc else acc ++ [x]) []

/-- JavaScript `o || d` for an optional string (empty string is falsy). -/
def jsOrStr (o : Option String) (dflt : String) : String :=
  match o with
  | some s => if s == "" then dflt else s
  | none => dflt

/-- Truthiness of an optional string. -/
def strTruthy (o : Option String) : Bool :=
  match o with
  | some s => s ≠ ""
  | none => false

def upperChar (c : Char) : Char :=
  if 'a' ≤ c && c ≤ 'z' then Char.ofNat (c.toNat - 32) else c

/-- `s.charAt(0).toUpperCase() + s.slice(1)`. -/
def upperFirst (s : String) : String :=
  match s.data with
  | [] => ""
  | c :: rest => ⟨upperChar c :: rest⟩

/-- Source: the answer pool of getMadisonResponse; the random index is an
input of the model. -/
def madisonAnswers : List String :=
  ["Hey Mads, I\x27m working, but wish we were in Aruba ;)",
   "Hey Mads, I\x27m working, but I\x27ll take you out for tacos later",
   "Hey Mads, I\x27m working, but let\x27s grab McDonald\x27s later",
   "Hey Mads, I\x27m working, but Indian food sounds great",
   "Hey Mads, I\x27m working, but Mediterranean food it is"]

/-- Source: getMadisonResponse plus the meta fields the handler adds. -/
def madisonResponse (idx : Nat) : AskResponse :=
  ⟨(madisonAnswers.getD (idx % 5) ""), [], [], [], none,
    some { noMeta with
      fast_path := some true
      intent := some Intent.MADISON
      sources_used := some [] }⟩

/-- Source: getWorkStyleResponse plus the meta fields the handler adds. -/
def workStyleResponse : AskResponse :=
  ⟨"Yes—Ryan clearly enjoys building data products and solving problems. His career choices and portfolio show sustained investment in analytics engineering, automation, and shipping real systems. He\x27s relocating to NYC for career growth, which demonstrates commitment to advancing in the field. Outside of work, Ryan enjoys skiing and snowboarding (Beaver Creek is his favorite mountain), cooking, eating out (pizza, cheesesteaks, Indian food, and oxtail are favorites), going to concerts, exploring parks and hiking, and training for marathons (currently at 13km, probably training forever). He\x27s a die-hard Eagles fan—go birds!—and loves watching football and playing soccer. When it comes to coding, Python is his favorite, though SQL was his first love. He\x27s also learning Portuguese. Favorite places include the Caribbean, France, and Broad Street when the Eagles won the Super Bowl. Favorite drink: whiskey or water (preferably both). To learn more about his perspective and interests, text Ryan at 215-485-6592.",
    ["Work Ethic", "Career Commitment"],
    [⟨"Portfolio Site", "https://www.powervisualize.com"⟩,
     ⟨"About Page", "https://www.powervisualize.com/about"⟩],
    [], none,
    some { noMeta with
      fast_path := some true
      intent := some Intent.WORK_STYLE
      sources_used := some [] }⟩

def ackResponse : AskResponse :=
  ⟨"Glad to help — feel free to ask about projects, tools, or how Ryan approaches his work.",
    [], [], [], none,
    some { noMeta with
      intent := some Intent.ACKNOWLEDGEMENT
      fast_path := some true
      sources_used := some [] }⟩

def personalRefusalResponse : AskResponse :=
  ⟨"Ryan keeps his personal life private. In general, he values family and relationships, but this assistant focuses on his professional work. If you\x27d like to speak directly, visit the contact section.",
    [], [], [], none,
    some { noMeta with
      intent := some Intent.PERSONAL
      fast_path := some true
      sources_used := some [] }⟩

/-- Source: the workEthicResponse for Akuvo mentions (no trace and no meta in
the source literal). -/
def akuvoResponse : AskResponse :=
  ⟨"Absolutely! Just look around—this entire portfolio is evidence of someone who loves their work. Ryan has built production-grade data platforms, automated complex workflows, created interactive dashboards, and engineered end-to-end geospatial projects. This level of detail and craftsmanship doesn\x27t happen without genuine passion. The fact that he\x27s built this comprehensive portfolio site, complete with evidence-grounded answers about his skills, shows he\x27s deeply invested in his craft. Someone who puts this much care into showcasing their work clearly loves what they do.",
    ["Work Ethic", "Portfolio Development"],
    [⟨"Portfolio Site", "https://www.powervisualize.com"⟩,
     ⟨"Data Projects", "https://www.powervisualize.com/data-projects"⟩,
     ⟨"Dashboards", "https://www.powervisualize.com/dashboards"⟩],
    [], none, none⟩

def akuvoAlts : List Alt := [lit1 "akuvo", lit1 "akvuo"]

def fpRespAlts1 : List Alt :=
  [lit1 "test", lit1 "validate", lit1 "quality", lit1 "governance",
   lit1 "best practice", lit1 "rigor", lit1 "rigorous"]

def fpRespAlts2 : List Alt :=
  [lit1 "senior", lit1 "expert", lit1 "experienced", lit1 "level"]

def fpRespAlts3a : List Alt :=
  [lit1 "power bi", lit1 "pbi", lit1 "dax", lit1 "m query",
   lit1 "semantic model"]

def fpRespAlts3b : List Alt :=
  [lit1 "good", lit1 "expert", lit1 "skilled", lit1 "experienced",
   lit1 "use", lit1 "know"]

/-- Source: getFastPathResponse.  Its skillsMatrix and canonicalSkillsets
parameters are unused by the source body and omitted here. -/
def getFastPathResponse (question : String) : Option AskResponse :=
  let lower := lowerS question
  if regexTest fpRespAlts1 lower then
    some ⟨"Yes — Ryan approaches testing, validation, and governance as core responsibilities of senior data engineering work. His portfolio demonstrates layered modeling with validation logic, CI/CD pipelines for Power BI deployments, automated RLS/OLS governance, and KPI frameworks. This level of operational discipline is expected of a principal-level data engineer.",
      ["Data Engineering", "DevOps", "Power BI"],
      [⟨"Power BI CI/CD", "https://www.powervisualize.com/dashboards"⟩,
       ⟨"Data Projects", "https://www.powervisualize.com/data-projects"⟩],
      [], none, some { noMeta with fast_path := some true }⟩
  else if regexTest fpRespAlts2 lower then
    some ⟨"Yes — Ryan operates at a senior/principal level. His work includes production-grade Power BI platforms, end-to-end data pipelines with medallion architecture, automated governance workflows, and full-stack portfolio development. The depth and scope of his projects demonstrate senior-level craftsmanship.",
      ["Data Engineering", "Power BI", "Full-Stack Development"],
      [⟨"Portfolio Site", "https://www.powervisualize.com"⟩,
       ⟨"Data Projects", "https://www.powervisualize.com/data-projects"⟩],
      [], none, some { noMeta with fast_path := some true }⟩
  else if regexTest fpRespAlts3a lower && regexTest fpRespAlts3b lower then
    some ⟨"Absolutely. Power BI is one of Ryan\x27s strongest areas, particularly in production governance, DAX/M development, semantic modeling, and CI/CD automation. His portfolio demonstrates enterprise-grade Power BI platforms with automated RLS/OLS via XMLA/REST.",
      ["Power BI", "DAX", "M"],
      [⟨"Power BI Dashboards", "https://www.powervisualize.com/dashboards"⟩],
      [], none, some { noMeta with fast_path := some true }⟩
  else none

/-- Source: the strikeMessages array of the moderation-strike branch. -/
def strikeMessages : List String :=
  ["I can only help with Ryan\x27s skills, projects, and data work. Please keep questions professional and career-related.",
   "I can\x27t help with that. If you\x27re evaluating Ryan for a role, ask about skills/projects. For direct contact, visit the contact section.",
   "Chat is being locked due to repeated policy violations. For direct contact, visit the contact section."]

def moderationWarnMessage : String :=
  "I can only help with Ryan\x27s skills, projects, and data work. If you\x27d like, ask about Power BI, Synapse, A/B testing, or his portfolio projects."

def lockoutAnswer (minutesLeft : Nat) : String :=
  "Chat is temporarily locked due to policy violations. Please try again in "
    ++ natS minutesLeft ++ " minute" ++ pluralNe1 minutesLeft
    ++ ". For direct contact, visit the contact section."

def ryagentIsProofSkills : List String :=
  ["dbt", "data build tool", "postgresql", "postgres", "neon", "dbt marts",
   "semantic layer"]

/-- Source: the personalityKeywords list of the PERSONALITY branch (order
matters: `find` returns the first contained keyword). -/
def personalityKeywords : List String :=
  ["snowboarding", "snowboard", "skiing", "ski", "food", "foods", "movie",
   "movies", "drink", "drinks", "music", "sport", "sports", "travel",
   "favorite", "favourites", "favourite", "favorites", "hobby", "hobbies",
   "interest", "interests", "lord", "rings", "ring"]

/-!
### Handler model

The handler is modelled as a pure function from a `HandlerInput` to an
`Outcome`.  A `HandlerInput` packages the request (method, body, timestamp),
the per-client abuse-guard entries (the handler reads and writes one client
key per request), and the results that the external world returns to the
handler during this request: the rows of each database query, the data-file
load status, and the generator reply.  Fields that stand for query results
hold exactly what the corresponding query returned; boolean `...Ok` fields
model whether the corresponding awaited call threw (each one has a dedicated
catch in the source).  The `Outcome` records the HTTP status, the JSON body,
the `Retry-After` header, the updated guard entries, and which effects ran.
-/

structure PageRow where
  title : Option String
  url : Option String
  page_type : Option String
  project_slug : Option String
  project_name : Option String
deriving DecidableEq

structure PersRow where
  category : String
  subcategory : String
  value : String
deriving DecidableEq

structure MatrixProof where
  title : Option String
  url : Option String
deriving DecidableEq

/-- One entry of skills_matrix.json as read by the handler (the optional
chaining on `skill` and `aliases` in the source is dropped: entries are taken
well-formed, which is all the claims exercise). -/
structure MatrixSkill where
  skill : String
  aliases : List String
  proof : List MatrixProof
  summary : Option String
deriving DecidableEq

/-- A row of the trigram project search; `scoreText` is the similarity score
as later rendered by `toFixed(2)` (the score itself is only compared for
display, so the rendered text is taken as the input). -/
structure TrigramRow where
  project_id : String
  slug : String
  name : String
  scoreText : String
deriving DecidableEq

structure SkillMatchRow where
  skill_id : String
  skill_name : String
deriving DecidableEq

structure ProfileRow where
  project_id : String
  slug : String
  name : String
deriving DecidableEq

structure CountRow where
  project_id : String
  counts : Counts
deriving DecidableEq

structure PersCount where
  public_personality_items : Nat
deriving DecidableEq

/-- The generator reply after JSON parsing and the per-field `typeof`
filters of the source: the arrays hold exactly the well-typed entries the
filters keep, `answer` is `none` when the parsed object had no string
answer. -/
structure ParsedGen where
  answer : Option String
  skills_confirmed : List String
  evidence_links : List Link
  missing_info : List String
deriving DecidableEq

/-- The observable part of the dbPayload built for the generator
(its `_meta` object). -/
structure PayloadMeta where
  sources_used : List String
  matched_skill_name : Option String
  matched_project_slugs : List String
deriving DecidableEq

/-- What the database section hands to the generator section when it does
not respond directly. -/
structure DbOk where
  payload : Option PayloadMeta
  trace : List String
  ranTrigram : Bool
deriving DecidableEq

structure HandlerInput where
  method : String
  now : Nat
  strike0 : Option StrikeEntry
  rate0 : Option RateEntry
  hasApiKey : Bool
  rawQuestion : Option String
  pcPresent : Bool
  pcPath : Option String
  pageQueryOk : Bool
  pageRow : Option PageRow
  persQueryOk : Bool
  persRows : List PersRow
  dataFilesOk : Bool
  skillsMatrix : List MatrixSkill
  hasDb : Bool
  dbProbeOk : Bool
  dbQueriesOk : Bool
  publishedProjects : Nat
  totalProjects : Nat
  totalSkills : Nat
  totalDashboardPages : Nat
  persCount : Option PersCount
  skillsTable : List SkillRow
  skillMatchQueryOk : Bool
  skillFirstQueryOk : Bool
  skillProjectRows : List RankCand
  trigramRows : List TrigramRow
  skillTrigramRows : List SkillMatchRow
  skillAliasRows : List SkillMatchRow
  derivedQueryOk : Bool
  derivedRows : List String
  profilesTable : List ProfileRow
  countsTable : List CountRow
  distinctDashboards : Nat
  genOk : Bool
  parsed : Option ParsedGen
  madisonIdx : Nat
deriving DecidableEq

inductive PathTag where
  | options : PathTag
  | methodNotAllowed : PathTag
  | lockout : PathTag
  | rateLimited : PathTag
  | noApiKey : PathTag
  | missingQuestion : PathTag
  | questionTooLong : PathTag
  | pageCtxNoDb : PathTag
  | pageCtxFound : PathTag
  | pageCtxUnmapped : PathTag
  | pageCtxError : PathTag
  | personalityNoDb : PathTag
  | personalityFound : PathTag
  | personalityNotFound : PathTag
  | personalityGeneral : PathTag
  | personalityError : PathTag
  | acknowledgement : PathTag
  | madison : PathTag
  | workStyle : PathTag
  | personalRefusal : PathTag
  | moderationStrike : PathTag
  | moderationWarn : PathTag
  | dataFileFail : PathTag
  | akuvo : PathTag
  | fastPath : PathTag
  | dbProbeFail : PathTag
  | dashboardShortCircuit : PathTag
  | fabricFallback : PathTag
  | canonicalFallback : PathTag
  | generatorError : PathTag
  | parseFail : PathTag
  | generatorOk : PathTag
deriving DecidableEq

structure Outcome where
  status : Nat
  retryAfter : Option Nat
  body : Option AskResponse
  strikeSt : Option StrikeEntry
  rateSt : Option RateEntry
  usedDb : Bool
  usedGenerator : Bool
  ranTrigram : Bool
  ranModeration : Bool
  ranClassify : Bool
  path : PathTag
deriving DecidableEq

def mkOut (status : Nat) (retryAfter : Option Nat) (body : Option AskResponse)
    (strikeSt : Option StrikeEntry) (rateSt : Option RateEntry)
    (usedDb usedGenerator ranTrigram ranModeration ranClassify : Bool)
    (path : PathTag) : Outcome :=
  ⟨status, retryAfter, body, strikeSt, rateSt, usedDb, usedGenerator,
    ranTrigram, ranModeration, ranClassify, path⟩

/-- The state the guard phase passes on: the trimmed question and the guard
entries after checkStrikes and rateLimit ran. -/
structure GuardOk where
  question : String
  strike1 : Option StrikeEntry
  rate1 : Option RateEntry
deriving DecidableEq

/-- Source: handler lines up to the question length check — OPTIONS, the
POST check, checkStrikes with the lockout short circuit, rateLimit with the
429 and its Retry-After header, the OPENAI_API_KEY check, and the body
validation. -/
def guardPhase (inp : HandlerInput) : Except Outcome GuardOk :=
  if inp.method == "OPTIONS" then
    Except.error (mkOut 204 none none inp.strike0 inp.rate0
      false false false false false PathTag.options)
  else if inp.method != "POST" then
    Except.error (mkOut 405 none
      (some (safeErrorResponse "Method not allowed. Use POST." none none))
      inp.strike0 inp.rate0 false false false false false PathTag.methodNotAllowed)
  else
    match checkStrikes inp.strike0 inp.now with
    | (sc, strike1) =>
      match sc.lockedUntil with
      | some l =>
        let minutesLeft := (l - inp.now + 59999) / 60000
        Except.error (mkOut 200 none
          (some (safeErrorResponse (lockoutAnswer minutesLeft)
            (some { noMeta with
              blocked := some true
              locked_until := some l
              strikes := some sc.strikes })
            none))
          strike1 inp.rate0 false false false false false PathTag.lockout)
      | none =>
        match rateLimit inp.rate0 inp.now with
        | (RateResult.tooMany retry, rate1) =>
          Except.error (mkOut 429 (some retry)
            (some (safeErrorResponse
              "Rate limit exceeded. Please try again shortly." none none))
            strike1 rate1 false false false false false PathTag.rateLimited)
        | (RateResult.ok, rate1) =>
          if !inp.hasApiKey then
            Except.error (mkOut 500 none
              (some (safeErrorResponse
                "Server misconfigured: OPENAI_API_KEY is not set." none none))
              strike1 rate1 false false false false false PathTag.noApiKey)
          else
            if trimS (inp.rawQuestion.getD "") == "" then
              Except.error (mkOut 400 none
                (some (safeErrorResponse "Missing required field: question" none none))
                strike1 rate1 false false false false false PathTag.missingQuestion)
            else if (trimS (inp.rawQuestion.getD "")).length > 800 then
              Except.error (mkOut 400 none
                (some (safeErrorResponse "Question is too long (max 800 chars)." none none))
                strike1 rate1 false false false false false PathTag.questionTooLong)
            else
              Except.ok ⟨trimS (inp.rawQuestion.getD ""), strike1, rate1⟩

/-- Source: the PAGE_CONTEXT branch of the intent router. -/
def pageCtxOutcome (inp : HandlerInput) (g : GuardOk) : Outcome :=
  let pathTruthy := strTruthy inp.pcPath
  if !inp.hasDb || !pathTruthy then
    mkOut 200 none
      (some ⟨"You\x27re on " ++ jsOrStr inp.pcPath "an unknown page"
          ++ ". This page isn\x27t mapped in the portfolio database yet.",
        [], [], [], none,
        some { noMeta with
          intent := some Intent.PAGE_CONTEXT
          sources_used := some [] }⟩)
      g.strike1 g.rate1 false false false false true PathTag.pageCtxNoDb
  else if !inp.pageQueryOk then
    mkOut 200 none
      (some ⟨"You\x27re on " ++ jsOrStr inp.pcPath "an unknown page"
          ++ ". Unable to query page details from the database.",
        [], [], [], none,
        some { noMeta with
          intent := some Intent.PAGE_CONTEXT
          sources_used := some [] }⟩)
      g.strike1 g.rate1 true false false false true PathTag.pageCtxError
  else
    match inp.pageRow with
    | some page =>
      let links :=
        (if strTruthy page.url then
          [(⟨jsOrStr page.title "Current Page", page.url.getD ""⟩ : Link)]
        else [])
        ++ (if strTruthy page.project_slug then
          [(⟨jsOrStr page.project_name "Project",
            "/data-projects/" ++ page.project_slug.getD ""⟩ : Link)]
        else [])
      mkOut 200 none
        (some ⟨"You\x27re on the " ++ jsOrStr page.title "page" ++ " page ("
            ++ jsOrStr page.page_type "unknown type" ++ ")."
            ++ (if strTruthy page.project_name then
                " This relates to the " ++ page.project_name.getD "" ++ " project."
              else ""),
          [], links, [], none,
          some { noMeta with
            intent := some Intent.PAGE_CONTEXT
            sources_used := some ["db:dim_pages", "db:fct_project_pages"] }⟩)
        g.strike1 g.rate1 true false false false true PathTag.pageCtxFound
    | none =>
      mkOut 200 none
        (some ⟨"You\x27re on " ++ inp.pcPath.getD ""
            ++ ". This page isn\x27t mapped in the portfolio database yet.",
          [], [], [], none,
          some { noMeta with
            intent := some Intent.PAGE_CONTEXT
            sources_used := some [] }⟩)
        g.strike1 g.rate1 true false false false true PathTag.pageCtxUnmapped

/-- Source: the PERSONALITY branch of the intent router.  The SQL filter the
branch assembles only influences which rows come back, which is the
`persRows` input; the in-process logic on the rows is translated here. -/
def personalityOutcome (inp : HandlerInput) (g : GuardOk) : Outcome :=
  if !inp.hasDb then
    mkOut 200 none
      (some ⟨"Personality data is not available. Please ask about Ryan\x27s professional skills and projects instead.",
        [], [], [], none,
        some { noMeta with
          intent := some Intent.PERSONALITY
          sources_used := some [] }⟩)
      g.strike1 g.rate1 false false false false true PathTag.personalityNoDb
  else if !inp.persQueryOk then
    mkOut 200 none
      (some ⟨"Unable to query personality data. Please ask about Ryan\x27s professional skills and projects instead.",
        [], [], [], none,
        some { noMeta with
          intent := some Intent.PERSONALITY
          sources_used := some [] }⟩)
      g.strike1 g.rate1 true false false false true PathTag.personalityError
  else
    let lowerQuestion := lowerS g.question
    let mentionedItem := personalityKeywords.find? (fun kw => containsS lowerQuestion kw)
    match inp.persRows with
    | item :: _ =>
      let n := inp.persRows.length
      let lotr := containsS (lowerS item.value) "lord"
        && containsS (lowerS item.value) "ring"
      let answer := "Yes—Ryan has " ++ item.value ++ " listed as a "
        ++ item.subcategory ++ " in his " ++ item.category ++ "."
        ++ (if lotr then
            " He\x27s built a fun dashboard called \"Over and Back Again: Tracking Steps\" that tracks your steps progress against Frodo\x27s journey to Mordor. It\x27s a lighthearted way to combine his love of the movies with data visualization."
          else "")
      let links := if lotr then
          [(⟨"Over and Back Again: Tracking Steps",
            "https://www.powervisualize.com/dashboards/over-and-back-again-tracking-steps"⟩ : Link)]
        else []
      mkOut 200 none
        (some ⟨answer, [], links, [],
          some ["Found " ++ natS n ++ " matching personality attribute"
            ++ plural n ++ "…"],
          some { noMeta with
            intent := some Intent.PERSONALITY
            sources_used := some ["db:personality", "db:team_member_personality"] }⟩)
        g.strike1 g.rate1 true false false false true PathTag.personalityFound
    | [] =>
      match mentionedItem with
      | some item =>
        mkOut 200 none
          (some ⟨upperFirst item
              ++ " is not currently listed in Ryan\x27s portfolio personality data.",
            [], [], [], none,
            some { noMeta with
              intent := some Intent.PERSONALITY
              sources_used := some ["db:personality", "db:team_member_personality"] }⟩)
          g.strike1 g.rate1 true false false false true PathTag.personalityNotFound
      | none =>
        let n := inp.persRows.length
        let categories := dedupFirst (inp.persRows.map (fun p => p.category))
        mkOut 200 none
          (some ⟨"Ryan has " ++ natS n ++ " public personality attributes across "
              ++ natS categories.length
              ++ (if categories.length > 1 then " categories" else " category")
              ++ ": " ++ joinComma categories ++ ".",
            [], [], [],
            some ["Found " ++ natS n ++ " personality attribute" ++ plural n ++ "…"],
            some { noMeta with
              intent := some Intent.PERSONALITY
              sources_used := some ["db:personality", "db:team_member_personality"] }⟩)
          g.strike1 g.rate1 true false false false true PathTag.personalityGeneral

/-- Source: the intent router after the guards.  Deterministic intents
respond directly; PROFESSIONAL and FAST_PATH_PROFESSIONAL continue. -/
def routePhase (inp : HandlerInput) (g : GuardOk) : Except Outcome Intent :=
  let intent := classifyIntent g.question inp.pcPresent
  match intent with
  | Intent.PAGE_CONTEXT => Except.error (pageCtxOutcome inp g)
  | Intent.PERSONALITY => Except.error (personalityOutcome inp g)
  | Intent.ACKNOWLEDGEMENT =>
    Except.error (mkOut 200 none (some ackResponse) g.strike1 g.rate1
      false false false false true PathTag.acknowledgement)
  | Intent.MADISON =>
    Except.error (mkOut 200 none (some (madisonResponse inp.madisonIdx))
      g.strike1 g.rate1 false false false false true PathTag.madison)
  | Intent.WORK_STYLE =>
    Except.error (mkOut 200 none (some workStyleResponse) g.strike1 g.rate1
      false false false false true PathTag.workStyle)
  | Intent.PERSONAL =>
    Except.error (mkOut 200 none (some personalRefusalResponse) g.strike1 g.rate1
      false false false false true PathTag.personalRefusal)
  | _ => Except.ok intent

/-- Source: the content-moderation block.  A strike response carries the
updated strike entry (addStrike ran); a warn response leaves it unchanged. -/
def moderationPhase (inp : HandlerInput) (g : GuardOk) :
    Except Outcome (Option StrikeEntry) :=
  match checkContentModeration g.question with
  | ModOutcome.ok => Except.ok g.strike1
  | ModOutcome.strike =>
    match addStrike g.strike1 inp.now with
    | (res, strike2) =>
      let messageIndex := min (res.strikes - 1) 2
      Except.error (mkOut 200 none
        (some (safeErrorResponse (strikeMessages.getD messageIndex "")
          (some { noMeta with
            blocked := some true
            strikes := some res.strikes
            locked_until := res.lockedUntil })
          none))
        strike2 g.rate1 false false false true true PathTag.moderationStrike)
  | ModOutcome.warn =>
    Except.error (mkOut 200 none
      (some (safeErrorResponse moderationWarnMessage none none))
      g.strike1 g.rate1 false false false true true PathTag.moderationWarn)

/-- Source: the data-file load check, the Akuvo special case, and the
fast-path professional short circuit. -/
def dataPhase (inp : HandlerInput) (g : GuardOk) (intent : Intent)
    (strike2 : Option StrikeEntry) : Except Outcome Unit :=
  if !inp.dataFilesOk then
    Except.error (mkOut 500 none
      (some (safeErrorResponse "Internal server error: data files not available." none none))
      strike2 g.rate1 false false false true true PathTag.dataFileFail)
  else
    let lowerQuestion := lowerS g.question
    if regexTest akuvoAlts lowerQuestion then
      Except.error (mkOut 200 none (some akuvoResponse)
        strike2 g.rate1 false false false true true PathTag.akuvo)
    else if intent == Intent.FAST_PATH_PROFESSIONAL then
      match getFastPathResponse g.question with
      | some resp =>
        Except.error (mkOut 200 none (some resp)
          strike2 g.rate1 false false false true true PathTag.fastPath)
      | none => Except.ok ()
    else Except.ok ()

/-!
### Database section (source: the hasDb block of the handler)
-/

/-- A project candidate after stage B or C, carrying its match type and the
rendered similarity score used for trace display on the trigram path. -/
structure PCand where
  project_id : String
  slug : String
  name : String
  isSkillMatch : Bool
  scoreText : String
deriving DecidableEq

/-- `p.slug || p.name`. -/
def candName (p : PCand) : String := if p.slug == "" then p.name else p.slug

/-- The trace rendering of one candidate: the slug, plus the score in
parentheses for non-skill matches. -/
def candDisplay (p : PCand) : String :=
  candName p ++ (if p.isSkillMatch then "" else " (" ++ p.scoreText ++ ")")

/-- The `skillMap` deduplication: trigram rows are inserted first, alias rows
only for ids not already present, preserving first occurrences. -/
def dedupById (l : List SkillMatchRow) : List SkillMatchRow :=
  l.foldl (fun acc x =>
    if acc.any (fun y => y.skill_id == x.skill_id) then acc else acc ++ [x]) []

/-- Source: skill detection (the stg_skills query, then the fabric and dbt
fuzzy fallbacks).  When the skill-match query throws, its catch continues
with no detected skill and the fuzzy fallbacks do not run; the inner fuzzy
queries are taken as succeeding on the no-exception run modelled by
`dbQueriesOk`. -/
def detectSkillFull (inp : HandlerInput) (lowerQuestion : String) : Option String :=
  if inp.skillMatchQueryOk then
    match detectSkillQuery inp.skillsTable lowerQuestion with
    | some n => some n
    | none =>
      let viaFabric :=
        if containsS lowerQuestion "fabric"
            && !containsS lowerQuestion "microsoft fabric" then
          fuzzyNameLookup inp.skillsTable "fabric"
        else none
      match viaFabric with
      | some n => some n
      | none =>
        if containsS lowerQuestion "dbt" || containsS lowerQuestion "data build tool" then
          fuzzyNameLookup inp.skillsTable "dbt"
        else none
  else none

/-- Source: the skill-first branch — rank the joined rows with the counts
map and keep the top 3 (`match_type: 'skill'`). -/
def skillFirstCands (inp : HandlerInput) (sk : String) (question : String) :
    List PCand :=
  let countsMap := fun pid =>
    (inp.countsTable.find? (fun r => r.project_id == pid)).map (fun r => r.counts)
  let ranked := rankProjects inp.skillProjectRows countsMap (some sk) question
  (ranked.take 3).map (fun r => PCand.mk r.project_id r.slug r.name true "")

/-- The intermediate state of retrieval stages B through E. -/
structure Retrieval where
  detectedSkill : Option String
  skillFirstMatch : Bool
  ranTrigram : Bool
  candidatesE : List PCand
  finalIds : List String
  traceLines1 : List String
  matchedSkills : List SkillMatchRow
deriving DecidableEq

/-- Source: stages B (skill detection and skill-first lookup), C (trigram
project search, run exactly when the skill-first stage did not match),
D (skill trigram plus alias matching), and E (final selection with the
only-ryagent discard and the skill-derived fallback). -/
def stageBCE (inp : HandlerInput) (question : String) : Retrieval :=
  let lowerQuestion := lowerS question
  let detectedSkill := detectSkillFull inp lowerQuestion
  let sf : Bool × List PCand :=
    match detectedSkill with
    | some sk =>
      if inp.skillFirstQueryOk && !inp.skillProjectRows.isEmpty then
        (true, skillFirstCands inp sk question)
      else (false, [])
    | none => (false, [])
  let skillFirstMatch := sf.1
  let projectCandidates0 :=
    if skillFirstMatch then sf.2
    else inp.trigramRows.map (fun r => PCand.mk r.project_id r.slug r.name false r.scoreText)
  let ranTrigram := !skillFirstMatch
  let matchedSkills := dedupById (inp.skillTrigramRows ++ inp.skillAliasRows)
  let nonRyagent := projectCandidates0.filter (fun p => p.slug ≠ "ryagent")
  let onlyRyagent := !projectCandidates0.isEmpty && nonRyagent.isEmpty
    && !isAssistantQuestion question
  let isRyagentProofSkill :=
    match detectedSkill with
    | some d => ryagentIsProofSkills.any (fun s => containsS (lowerS d) (lowerS s))
    | none => false
  if !projectCandidates0.isEmpty then
    if onlyRyagent && detectedSkill.isSome && !isRyagentProofSkill then
      ⟨detectedSkill, skillFirstMatch, ranTrigram, [], [], [], matchedSkills⟩
    else
      let top := projectCandidates0.take 3
      let finalIds := top.map (fun p => p.project_id)
      let names := joinComma (top.map candDisplay)
      let line :=
        if skillFirstMatch then
          "Found " ++ natS (min 3 projectCandidates0.length) ++ " project"
            ++ plural projectCandidates0.length ++ " linked to "
            ++ detectedSkill.getD "" ++ ": " ++ names ++ "."
        else
          "Matched " ++ natS (min 3 projectCandidates0.length) ++ " project"
            ++ plural projectCandidates0.length ++ " by fuzzy search: "
            ++ names ++ "."
      ⟨detectedSkill, skillFirstMatch, ranTrigram, projectCandidates0, finalIds,
        [line], matchedSkills⟩
  else if !matchedSkills.isEmpty then
    if inp.derivedQueryOk then
      let finalIds := inp.derivedRows
      ⟨detectedSkill, skillFirstMatch, ranTrigram, projectCandidates0, finalIds,
        (if !finalIds.isEmpty then
          ["Derived " ++ natS finalIds.length ++ " project" ++ plural finalIds.length
            ++ " from " ++ natS matchedSkills.length ++ " matched skill"
            ++ plural matchedSkills.length ++ "."]
        else []), matchedSkills⟩
    else
      ⟨detectedSkill, skillFirstMatch, ranTrigram, projectCandidates0, [], [],
        matchedSkills⟩
  else
    ⟨detectedSkill, skillFirstMatch, ranTrigram, projectCandidates0, [], [],
      matchedSkills⟩

/-- Source: the dynamic trace block guarded by
`finalProjectIds.length > 0 && matchedProjects.length > 0`. -/
def stageTrace2 (inp : HandlerInput) (lowerQuestion : String) (r : Retrieval)
    (matchedProjects : List ProfileRow) (matchedCounts : List CountRow)
    (isPersonalityQ : Bool) : List String :=
  if !r.finalIds.isEmpty && !matchedProjects.isEmpty then
    let persLine :=
      match inp.persCount with
      | some pc =>
        if isPersonalityQ && pc.public_personality_items > 0 then
          ["Searching " ++ natS pc.public_personality_items
            ++ " personality attribute" ++ plural pc.public_personality_items ++ "…"]
        else []
      | none => []
    let projLine :=
      if r.skillFirstMatch && r.detectedSkill.isSome then
        ["Found " ++ natS (min 3 r.candidatesE.length) ++ " project"
          ++ plural r.candidatesE.length ++ " linked to "
          ++ r.detectedSkill.getD "" ++ ": "
          ++ joinComma ((r.candidatesE.take 3).map candDisplay) ++ "."]
      else if !r.candidatesE.isEmpty then
        ["Matched " ++ natS (min 3 r.candidatesE.length) ++ " project"
          ++ plural r.candidatesE.length ++ " by fuzzy search: "
          ++ joinComma ((r.candidatesE.take 3).map candDisplay) ++ "."]
      else []
    let hasDashboardProjects := matchedCounts.any (fun c => c.counts.dashboard_pages > 0)
    let dashSearchLine :=
      if hasDashboardProjects && inp.totalDashboardPages > 0
          && (containsS lowerQuestion "dashboard" || containsS lowerQuestion "power bi") then
        ["Searching " ++ natS inp.totalDashboardPages ++ " dashboard"
          ++ plural inp.totalDashboardPages ++ " across the portfolio…"]
      else []
    let skillsLine :=
      if (r.detectedSkill.isSome || containsS lowerQuestion "skill")
          && inp.totalSkills > 0 && inp.publishedProjects > 0 then
        ["Scanning " ++ natS inp.totalSkills ++ " skill" ++ plural inp.totalSkills
          ++ " across " ++ natS inp.publishedProjects ++ " published project"
          ++ plural inp.publishedProjects ++ "…"]
      else []
    let topLine :=
      if matchedCounts.length > 1 then
        let pcs := matchedCounts.map (fun c =>
          let slugN :=
            match matchedProjects.find? (fun p => p.project_id == c.project_id) with
            | some p => if p.slug ≠ "" then p.slug
                else if p.name ≠ "" then p.name else "unknown"
            | none => "unknown"
          (slugN, c.counts.skills_count, c.counts.dashboard_pages))
        ["Top matches: " ++ joinComma ((pcs.take 3).map (fun pc =>
          pc.1 ++ " (" ++ natS pc.2.1 ++ " skill" ++ pluralNe1 pc.2.1
            ++ (if pc.2.2 > 0 then
                ", " ++ natS pc.2.2 ++ " dashboard" ++ plural pc.2.2
              else "") ++ ")")) ++ "."]
      else []
    persLine ++ projLine ++ dashSearchLine ++ skillsLine ++ topLine
  else []

/-- Source: the skillsMatrix lookup shared by the dashboard short circuit and
the canonical fallback (case-insensitive equality on name or alias). -/
def findSkillInMatrix (matrix : List MatrixSkill) (dSkill : String) :
    Option MatrixSkill :=
  matrix.find? (fun s =>
    lowerS s.skill == lowerS dSkill
      || s.aliases.any (fun a => lowerS a == lowerS dSkill))

def fabricContextText : String :=
  "Ryan has Microsoft Fabric experience for enterprise analytics, including Lakehouse/warehouse modeling, pipelines/orchestration, dimensional schemas, and governed semantic models for Power BI. "

def noLinksLine : String :=
  "No project links found in portfolio DB yet — using canonical skillsets evidence."

def dbFailBody : AskResponse :=
  ⟨"Database connection error. Please try again, or visit the contact section.",
    [], [], [], some ["DB connection failed"], none⟩

def dbMatchedProjects (inp : HandlerInput) (q : String) : List ProfileRow :=
  inp.profilesTable.filter (fun p => (stageBCE inp q).finalIds.contains p.project_id)

def dbMatchedCounts (inp : HandlerInput) (q : String) : List CountRow :=
  inp.countsTable.filter (fun c => (stageBCE inp q).finalIds.contains c.project_id)

/-- The deduplicated, capped trace of the database section. -/
def dbTrace (inp : HandlerInput) (q : String) : List String :=
  (dedupFirst ((stageBCE inp q).traceLines1
    ++ stageTrace2 inp (lowerS q) (stageBCE inp q) (dbMatchedProjects inp q)
      (dbMatchedCounts inp q) (isPersonalityQuestion (lowerS q)))).take 4

def dbSources (inp : HandlerInput) (q : String) : List String :=
  (if (stageBCE inp q).skillFirstMatch then ["db:skill_first"]
   else if !(stageBCE inp q).candidatesE.isEmpty then ["db:trigram_search"] else [])
  ++ (if !(dbMatchedProjects inp q).isEmpty then ["db:mart_project_profile"] else [])
  ++ (if !(dbMatchedCounts inp q).isEmpty then ["db:fct_project_counts"] else [])

def dbSlugs (inp : HandlerInput) (q : String) : List String :=
  (dbMatchedProjects inp q).map (fun p => p.slug) |>.filter (fun s => s ≠ "")

def dSkillOf (inp : HandlerInput) (q : String) : String :=
  (stageBCE inp q).detectedSkill.getD ""

/-- The continue case of the database section: the payload `_meta` handed to
the generator. -/
def dbContinue (inp : HandlerInput) (q : String) : DbOk :=
  ⟨some ⟨(if !(dbSources inp q).isEmpty then dbSources inp q else ["db:no_matches"]),
    (stageBCE inp q).detectedSkill, dbSlugs inp q⟩,
    dbTrace inp q, (stageBCE inp q).ranTrigram⟩

/-- The condition of the dashboard-density short circuit (G). -/
def gCond (inp : HandlerInput) (q : String) : Bool :=
  !(stageBCE inp q).finalIds.isEmpty && (stageBCE inp q).detectedSkill.isSome
    && !(dbMatchedCounts inp q).isEmpty && inp.distinctDashboards ≥ 3

/-- The condition of the canonical-skillsets fallback (F). -/
def fCond (inp : HandlerInput) (q : String) : Bool :=
  !(!(stageBCE inp q).finalIds.isEmpty || !(dbMatchedProjects inp q).isEmpty)
    && !((dbMatchedCounts inp q).any (fun c => c.counts.dashboard_pages > 0))
    && (stageBCE inp q).detectedSkill.isSome

def fabricSkillCond (inp : HandlerInput) (q : String) : Bool :=
  containsS (lowerS (dSkillOf inp q)) "microsoft fabric"
    || containsS (lowerS (dSkillOf inp q)) "fabric"

/-- The body of the dashboard-density short-circuit response (G). -/
def dashboardOutcome (inp : HandlerInput) (g : GuardOk) (intent : Intent)
    (strike2 : Option StrikeEntry) : Outcome :=
  let dSkill := dSkillOf inp g.question
  let skillInMatrix := findSkillInMatrix inp.skillsMatrix dSkill
  let resumeContext :=
    if (match skillInMatrix with
        | some sm => strTruthy sm.summary
        | none => false) then
      ((skillInMatrix.bind (fun sm => sm.summary)).getD "") ++ " "
    else if fabricSkillCond inp g.question then fabricContextText
    else ""
  let n := inp.distinctDashboards
  let projectNames := ((dbMatchedProjects inp g.question).take 3).map (fun p => p.name)
    |>.filter (fun s => s ≠ "")
  let projectContext :=
    if !projectNames.isEmpty then ", including projects like " ++ joinComma projectNames
    else ""
  mkOut 200 none
    (some ⟨resumeContext ++ "This is demonstrated across " ++ natS n
        ++ " dashboard" ++ plural n ++ " in his portfolio" ++ projectContext
        ++ ". You can explore these dashboards to see the work in action.",
      [dSkill],
      [⟨"Power BI Dashboards", "https://www.powervisualize.com/dashboards"⟩],
      [],
      some (dbTrace inp g.question
        ++ ["Found " ++ natS n ++ " dashboard" ++ plural n ++ " linked to " ++ dSkill ++ "."]),
      some { noMeta with
        intent := some intent
        sources_used := some (if !(dbSources inp g.question).isEmpty then
            dbSources inp g.question
          else ["db:skill_first"])
        matched_skill_name := some dSkill
        matched_project_slugs := some (dbSlugs inp g.question) }⟩)
    strike2 g.rate1 true false (stageBCE inp g.question).ranTrigram true true
    PathTag.dashboardShortCircuit

/-- The body of the Microsoft Fabric special-case fallback response. -/
def fabricOutcome (inp : HandlerInput) (g : GuardOk) (intent : Intent)
    (strike2 : Option StrikeEntry) : Outcome :=
  mkOut 200 none
    (some ⟨"Yes — Ryan has Microsoft Fabric experience for enterprise analytics, including Lakehouse/warehouse modeling, pipelines/orchestration, dimensional schemas, and governed semantic models for Power BI. Portfolio DB doesn\x27t yet map this skill to a specific project. For detailed project links, visit the contact section.",
      ["Microsoft Fabric"],
      [⟨"Portfolio Site", "https://www.powervisualize.com"⟩,
       ⟨"Contact", "https://www.powervisualize.com/contact"⟩],
      ["DB project mappings"],
      some (dbTrace inp g.question ++ [noLinksLine]),
      some { noMeta with
        intent := some intent
        sources_used := some ["fallback:canonical_skillsets"]
        matched_skill_name := some (dSkillOf inp g.question) }⟩)
    strike2 g.rate1 true false (stageBCE inp g.question).ranTrigram true true
    PathTag.fabricFallback

/-- The body of the canonical-skillsets fallback response. -/
def canonicalOutcome (inp : HandlerInput) (g : GuardOk) (intent : Intent)
    (strike2 : Option StrikeEntry) (sm : MatrixSkill) : Outcome :=
  let dSkill := dSkillOf inp g.question
  mkOut 200 none
    (some ⟨"Yes — Ryan has " ++ dSkill ++ " experience confirmed from canonical skillsets and portfolio evidence. Portfolio DB doesn\x27t yet map this skill to a specific project. For detailed project links, visit the contact section.",
      [if sm.skill ≠ "" then sm.skill else dSkill],
      ((sm.proof.take 3).map (fun p =>
        (⟨jsOrStr p.title "Portfolio Evidence",
          jsOrStr p.url "https://www.powervisualize.com"⟩ : Link)))
        ++ [⟨"Contact", "https://www.powervisualize.com/contact"⟩],
      ["DB project mappings"],
      some (dbTrace inp g.question ++ [noLinksLine]),
      some { noMeta with
        intent := some intent
        sources_used := some ["fallback:canonical_skillsets"]
        matched_skill_name := some dSkill }⟩)
    strike2 g.rate1 true false (stageBCE inp g.question).ranTrigram true true
    PathTag.canonicalFallback

/-- Source: the hasDb block — the connectivity probe with its 500 on
failure, the outer try/catch that nulls the payload and clears the trace on
any query error, retrieval, trace assembly, the dashboard-density short
circuit (G) and the canonical-skillsets fallback (F).  The condition
`canonicalSkillsets || skillsMatrix` of F is true whenever this phase runs
(the data phase already required both files). -/
def dbPhase (inp : HandlerInput) (g : GuardOk) (intent : Intent)
    (strike2 : Option StrikeEntry) : Except Outcome DbOk :=
  if !inp.hasDb then Except.ok ⟨none, [], false⟩
  else if !inp.dbProbeOk then
    Except.error (mkOut 500 none (some dbFailBody) strike2 g.rate1
      true false false true true PathTag.dbProbeFail)
  else if !inp.dbQueriesOk then Except.ok ⟨none, [], false⟩
  else if gCond inp g.question then
    Except.error (dashboardOutcome inp g intent strike2)
  else if fCond inp g.question then
    if fabricSkillCond inp g.question then
      Except.error (fabricOutcome inp g intent strike2)
    else
      match findSkillInMatrix inp.skillsMatrix (dSkillOf inp g.question) with
      | some sm =>
        if !sm.proof.isEmpty then
          Except.error (canonicalOutcome inp g intent strike2 sm)
        else Except.ok (dbContinue inp g.question)
      | none => Except.ok (dbContinue inp g.question)
  else Except.ok (dbContinue inp g.question)

/-- Source: the generator call (timeout race), the JSON parse with its
formatting-failure fallback, the uncertainty prefix, the trace suppression
for uncertain answers, and the meta assembly of the final response. -/
def genPhase (inp : HandlerInput) (g : GuardOk) (intent : Intent)
    (strike2 : Option StrikeEntry) (dbOk : DbOk) : Outcome :=
  if !inp.genOk then
    mkOut 500 none
      (some (safeErrorResponse
        "The request took too long to process. Please try again with a shorter question."
        none none))
      strike2 g.rate1 inp.hasDb true dbOk.ranTrigram true true PathTag.generatorError
  else
    match inp.parsed with
    | none =>
      mkOut 200 none
        (some (safeErrorResponse
          "I had trouble formatting the response. Please try again." none none))
        strike2 g.rate1 inp.hasDb true dbOk.ranTrigram true true PathTag.parseFail
    | some parsed =>
      let answer0 := parsed.answer.getD "I couldn\x27t generate a proper answer."
      let answerText :=
        if !parsed.missing_info.isEmpty
            && !containsS (lowerS answer0) "cannot confirm"
            && !containsS (lowerS answer0) "not certain"
            && !containsS (lowerS answer0) "not sure" then
          "I\x27m not certain about this from the available evidence. " ++ answer0
        else answer0
      let isCannotConfirm := containsS (lowerS answerText) "cannot confirm"
        || containsS (lowerS answerText) "not certain"
        || containsS (lowerS answerText) "not sure"
      let finalTrace := if isCannotConfirm then [] else dbOk.trace
      let metaInfo := { noMeta with
        intent := some intent
        sources_used := some (match dbOk.payload with
          | some pm => pm.sources_used
          | none => ["fallback:canonical_skillsets"])
        matched_skill_name := (match dbOk.payload with
          | some pm => if strTruthy pm.matched_skill_name then pm.matched_skill_name else none
          | none => none)
        matched_project_slugs := (match dbOk.payload with
          | some pm =>
            if !pm.matched_project_slugs.isEmpty then some pm.matched_project_slugs
            else none
          | none => none) }
      mkOut 200 none
        (some ⟨answerText, parsed.skills_confirmed, parsed.evidence_links,
          parsed.missing_info, some finalTrace, some metaInfo⟩)
        strike2 g.rate1 inp.hasDb true dbOk.ranTrigram true true PathTag.generatorOk

/-- The full handler: the phases in source order. -/
def runHandler (inp : HandlerInput) : Outcome :=
  match guardPhase inp with
  | Except.error o => o
  | Except.ok g =>
    match routePhase inp g with
    | Except.error o => o
    | Except.ok intent =>
      match moderationPhase inp g with
      | Except.error o => o
      | Except.ok strike2 =>
        match dataPhase inp g intent strike2 with
        | Except.error o => o
        | Except.ok _ =>
          match dbPhase inp g intent strike2 with
          | Except.error o => o
          | Except.ok dbOk => genPhase inp g intent strike2 dbOk

/-- A neutral input used to build concrete instances: a POST with fresh
guard state, no page context, empty stores, working external calls. -/
def baseInput : HandlerInput :=
  { method := "POST"
    now := 0
    strike0 := none
    rate0 := none
    hasApiKey := true
    rawQuestion := none
    pcPresent := false
    pcPath := none
    pageQueryOk := true
    pageRow := none
    persQueryOk := true
    persRows := []
    dataFilesOk := true
    skillsMatrix := []
    hasDb := false
    dbProbeOk := true
    dbQueriesOk := true
    publishedProjects := 0
    totalProjects := 0
    totalSkills := 0
    totalDashboardPages := 0
    persCount := none
    skillsTable := []
    skillMatchQueryOk := true
    skillFirstQueryOk := true
    skillProjectRows := []
    trigramRows := []
    skillTrigramRows := []
    skillAliasRows := []
    derivedQueryOk := true
    derivedRows := []
    profilesTable := []
    countsTable := []
    distinctDashboards := 0
    genOk := true
    parsed := none
    madisonIdx := 0 }

/-!
### Generic facts about the model used by several claims
-/

/-- The rejection responses of claim C9: every path whose response is built
by safeErrorResponse or the probe-failure literal. -/
def rejectionPath : PathTag → Bool
  | PathTag.methodNotAllowed => true
  | PathTag.lockout => true
  | PathTag.rateLimited => true
  | PathTag.noApiKey => true
  | PathTag.missingQuestion => true
  | PathTag.questionTooLong => true
  | PathTag.moderationStrike => true
  | PathTag.moderationWarn => true
  | PathTag.dataFileFail => true
  | PathTag.dbProbeFail => true
  | PathTag.generatorError => true
  | PathTag.parseFail => true
  | _ => false

/-- The outcome carries a body whose three evidence arrays are all empty. -/
def emptyEvidence (o : Outcome) : Prop :=
  ∃ b, o.body = some b ∧ b.skills_confirmed = [] ∧ b.evidence_links = []
    ∧ b.missing_info = []

/-- A trace as the claims bound it: no duplicates, at most 4 lines. -/
def goodTrace (t : List String) : Prop := t.Nodup ∧ t.length ≤ 4

/-- A question-less POST at time `t` from the client whose guard entries are
given: the minimal request shape used to exercise the rate window. -/
def benignAt (t : Nat) (strike : Option StrikeEntry) (rate : Option RateEntry) :
    HandlerInput :=
  { baseInput with now := t, strike0 := strike, rate0 := rate }

/-- Run one benign request and keep the updated guard entries. -/
def stepState (st : Option StrikeEntry × Option RateEntry) (t : Nat) :
    Option StrikeEntry × Option RateEntry :=
  ((runHandler (benignAt t st.1 st.2)).strikeSt,
    (runHandler (benignAt t st.1 st.2)).rateSt)

/-- Run a sequence of benign requests from one client, threading the
per-client guard entries. -/
def runSeqStates (ts : List Nat) (st : Option StrikeEntry × Option RateEntry) :
    Option StrikeEntry × Option RateEntry :=
  ts.foldl stepState st

/-- The three early-return paths of the database section that extend the
already-capped trace by one more line. -/
def shortCircuitPath (p : PathTag) : Bool :=
  p == PathTag.dashboardShortCircuit || p == PathTag.fabricFallback
    || p == PathTag.canonicalFallback

/-- What the code guarantees of a response trace: on the three database
short-circuit paths the trace is a deduplicated trace of at most 4 lines
with one extra line appended (so up to 5 lines); on every other path a
present trace has no duplicates and at most 4 lines. -/
def traceOk (o : Outcome) : Prop :=
  match o.body with
  | none => True
  | some b =>
    match b.trace with
    | none => True
    | some t =>
      if shortCircuitPath o.path then
        ∃ t0 extra, t = t0 ++ [extra] ∧ t0.Nodup ∧ t0.length ≤ 4
      else t.Nodup ∧ t.length ≤ 4

/-- A request that reaches the dashboard-density short circuit with a full
4-line trace and a skills-matrix summary containing an uncertainty
marker. -/
def c6Inp : HandlerInput :=
  { baseInput with
    rawQuestion := some "what power bi dashboards has ryan built"
    hasDb := true
    skillsTable := [⟨"power bi", []⟩]
    skillsMatrix := [⟨"power bi", [], [],
      some "He is not sure which dashboard is best, but Power BI anchors his analytics work."⟩]
    skillProjectRows := [⟨"pA", "powerviz", "PowerViz", some 4⟩,
      ⟨"pB", "salesdash", "SalesDash", some 3⟩]
    countsTable := [⟨"pA", ⟨2, 0, 6⟩⟩, ⟨"pB", ⟨1, 0, 4⟩⟩]
    profilesTable := [⟨"pA", "powerviz", "PowerViz"⟩,
      ⟨"pB", "salesdash", "SalesDash"⟩]
    totalDashboardPages := 5
    totalSkills := 12
    publishedProjects := 6
    distinctDashboards := 3 }

/-- The c6 request with the database connectivity probe failing. -/
def c7Inp : HandlerInput := { c6Inp with dbProbeOk := false }

/-- The c6 request with the probe succeeding but every later database query
failing, and a well-formed generator reply. -/
def c7DegradedInp : HandlerInput :=
  { c6Inp with
    dbQueriesOk := false
    parsed := some ⟨some "Ryan has Power BI dashboards.", ["Power BI"], [], []⟩ }

/-- A guard state for exercising the database phase directly. -/
def c7G : GuardOk := ⟨"what power bi dashboards has ryan built", none, none⟩

/-- Two skill rows for exercising the detection query: a short name that
matches the question by name, and a long name that matches only by alias. -/
def c5Skills : List SkillRow :=
  [⟨"sql", []⟩, ⟨"power query", ["pq"]⟩]

/-- A database state where the skill dax is detected, the skill-first
lookup returns only the ryagent project, and the trigram search would find
one project. -/
def c4Inp : HandlerInput :=
  { baseInput with
    skillsTable := [⟨"dax", []⟩]
    skillProjectRows := [⟨"rp1", "ryagent", "RyAgent", some 5⟩]
    trigramRows := [⟨"tp1", "powerviz", "PowerViz", "0.42"⟩] }

def c4Question : String := "does ryan have dax experience"

/-- The same state with the skill-first lookup returning nothing: what as
if the skill-first stage had found nothing means. -/
def c4InpNoRows : HandlerInput := { c4Inp with skillProjectRows := [] }

/-- A dashboard-type project row as in the spec ranking example. -/
def c1Dash : RankCand := ⟨"p1", "powerviz", "PowerViz", some 4⟩

/-- The meta project row as in the spec ranking example. -/
def c1Meta : RankCand := ⟨"p2", "ryagent", "RyAgent", some 5⟩

/-- Counts for the two example projects. -/
def c1CountsMap : String → Option Counts := fun id =>
  if id == "p1" then some ⟨2, 0, 6⟩
  else if id == "p2" then some ⟨0, 3, 10⟩
  else none

theorem dedupFoldl_mem : ∀ (l acc : List String) (a : String),
    a ∈ l.foldl (fun acc x => if x ∈ acc then acc else acc ++ [x]) acc →
    a ∈ acc ∨ a ∈ l := by
  intro l
  induction l with
  | nil => intro acc a h; exact Or.inl h
  | cons x xs ih =>
    intro acc a h
    rw [List.foldl_cons] at h
    rcases ih _ a h with h1 | h2
    · split at h1
      · exact Or.inl h1
      · rcases List.mem_append.mp h1 with h3 | h4
        · exact Or.inl h3
        · rw [List.mem_singleton] at h4
          exact Or.inr (h4 ▸ List.mem_cons_self x xs)
    · exact Or.inr (List.mem_cons_of_mem _ h2)

theorem dedupFirst_mem : ∀ (l : List String) (a : String),
    a ∈ dedupFirst l → a ∈ l := by
  intro l a h
  rcases dedupFoldl_mem l [] a h with h1 | h2
  · exact absurd h1 (List.not_mem_nil a)
  · exact h2

theorem dedupFoldl_nodup : ∀ (l acc : List String), acc.Nodup →
    (l.foldl (fun acc x => if x ∈ acc then acc else acc ++ [x]) acc).Nodup := by
  intro l
  induction l with
  | nil => intro acc h; exact h
  | cons x xs ih =>
    intro acc h
    rw [List.foldl_cons]
    refine ih _ ?_
    split
    · exact h
    · rename_i hc
      refine List.Nodup.append h (List.nodup_singleton x) ?_
      intro a ha hb
      rw [List.mem_singleton] at hb
      subst hb
      exact hc ha

theorem dedupFirst_nodup : ∀ l : List String, (dedupFirst l).Nodup := by
  intro l
  exact dedupFoldl_nodup l [] List.nodup_nil

theorem goodTrace_nil : goodTrace [] := ⟨List.nodup_nil, by simp⟩

theorem goodTrace_single (s : String) : goodTrace [s] :=
  ⟨List.nodup_singleton s, by simp⟩

theorem goodTrace_dedup_take (l : List String) :
    goodTrace ((dedupFirst l).take 4) :=
  ⟨List.Nodup.sublist (List.take_sublist _ _) (dedupFirst_nodup l),
    by simp⟩

theorem guardPhase_reject (inp : HandlerInput) (o : Outcome)
    (h : guardPhase inp = Except.error o) (hp : rejectionPath o.path = true) :
    emptyEvidence o := by
  simp only [guardPhase] at h
  repeat' split at h
  all_goals
    first
      | exact Except.noConfusion h
      | · injection h with h2
          subst h2
          first
            | exact ⟨_, rfl, rfl, rfl, rfl⟩
            | simp [mkOut, rejectionPath] at hp

theorem routePhase_no_reject (inp : HandlerInput) (g : GuardOk) (o : Outcome)
    (h : routePhase inp g = Except.error o) : rejectionPath o.path = false := by
  simp only [routePhase, pageCtxOutcome, personalityOutcome] at h
  repeat' split at h
  all_goals
    first
      | exact Except.noConfusion h
      | · injection h with h2
          subst h2
          simp [mkOut, rejectionPath]

theorem moderationPhase_reject (inp : HandlerInput) (g : GuardOk) (o : Outcome)
    (h : moderationPhase inp g = Except.error o) (hp : rejectionPath o.path = true) :
    emptyEvidence o := by
  simp only [moderationPhase] at h
  repeat' split at h
  all_goals
    first
      | exact Except.noConfusion h
      | · injection h with h2
          subst h2
          first
            | exact ⟨_, rfl, rfl, rfl, rfl⟩
            | simp [mkOut, rejectionPath] at hp

theorem dataPhase_reject (inp : HandlerInput) (g : GuardOk) (intent : Intent)
    (s2 : Option StrikeEntry) (o : Outcome)
    (h : dataPhase inp g intent s2 = Except.error o)
    (hp : rejectionPath o.path = true) : emptyEvidence o := by
  simp only [dataPhase] at h
  repeat' split at h
  all_goals
    first
      | exact Except.noConfusion h
      | · injection h with h2
          subst h2
          first
            | exact ⟨_, rfl, rfl, rfl, rfl⟩
            | simp [mkOut, rejectionPath] at hp

theorem dbPhase_reject (inp : HandlerInput) (g : GuardOk) (intent : Intent)
    (s2 : Option StrikeEntry) (o : Outcome)
    (h : dbPhase inp g intent s2 = Except.error o)
    (hp : rejectionPath o.path = true) : emptyEvidence o := by
  simp only [dbPhase] at h
  repeat' split at h
  all_goals
    first
      | exact Except.noConfusion h
      | · injection h with h2
          subst h2
          first
            | exact ⟨_, rfl, rfl, rfl, rfl⟩
            | simp [mkOut, dashboardOutcome, fabricOutcome, canonicalOutcome,
                rejectionPath] at hp

theorem genPhase_reject (inp : HandlerInput) (g : GuardOk) (intent : Intent)
    (s2 : Option StrikeEntry) (dbOk : DbOk)
    (hp : rejectionPath (genPhase inp g intent s2 dbOk).path = true) :
    emptyEvidence (genPhase inp g intent s2 dbOk) := by
  unfold genPhase at hp ⊢
  repeat' split
  all_goals
    simp_all only []
    first
      | exact ⟨_, rfl, rfl, rfl, rfl⟩
      | simp [mkOut, rejectionPath] at hp

theorem routePhase_not_lockout (inp : HandlerInput) (g : GuardOk) (o : Outcome)
    (h : routePhase inp g = Except.error o) : o.path ≠ PathTag.lockout := by
  have := routePhase_no_reject inp g o h
  intro hcontra
  rw [hcontra] at this
  simp [rejectionPath] at this

theorem moderationPhase_not_lockout (inp : HandlerInput) (g : GuardOk) (o : Outcome)
    (h : moderationPhase inp g = Except.error o) : o.path ≠ PathTag.lockout := by
  simp only [moderationPhase] at h
  repeat' split at h
  all_goals
    first
      | exact Except.noConfusion h
      | · injection h with h2
          subst h2
          simp [mkOut]

theorem dataPhase_not_lockout (inp : HandlerInput) (g : GuardOk) (intent : Intent)
    (s2 : Option StrikeEntry) (o : Outcome)
    (h : dataPhase inp g intent s2 = Except.error o) : o.path ≠ PathTag.lockout := by
  simp only [dataPhase] at h
  repeat' split at h
  all_goals
    first
      | exact Except.noConfusion h
      | · injection h with h2
          subst h2
          simp [mkOut]

theorem dbPhase_not_lockout (inp : HandlerInput) (g : GuardOk) (intent : Intent)
    (s2 : Option StrikeEntry) (o : Outcome)
    (h : dbPhase inp g intent s2 = Except.error o) : o.path ≠ PathTag.lockout := by
  simp only [dbPhase] at h
  repeat' split at h
  all_goals
    first
      | exact Except.noConfusion h
      | · injection h with h2
          subst h2
          simp [mkOut, dashboardOutcome, fabricOutcome, canonicalOutcome]

theorem genPhase_not_lockout (inp : HandlerInput) (g : GuardOk) (intent : Intent)
    (s2 : Option StrikeEntry) (dbOk : DbOk) :
    (genPhase inp g intent s2 dbOk).path ≠ PathTag.lockout := by
  unfold genPhase
  repeat' split
  all_goals simp [mkOut]

theorem guardPhase_not_lockout_of_clear (inp : HandlerInput) (o : Outcome)
    (h : guardPhase inp = Except.error o)
    (hclear : (checkStrikes inp.strike0 inp.now).1.lockedUntil = none) :
    o.path ≠ PathTag.lockout := by
  simp only [guardPhase] at h
  repeat' split at h
  all_goals
    first
      | exact Except.noConfusion h
      | · injection h with h2
          subst h2
          simp [mkOut]
      | simp_all

/-- Claim C9: every response produced on a rejection path — wrong HTTP
method, lockout, rate limit, missing or over-length question, moderation
block, data-file load failure, database-connection failure, generator error,
and generator-JSON parse failure — has skills_confirmed, evidence_links and
missing_info all equal to the empty array. -/
theorem C9_rejection_empty_evidence (inp : HandlerInput)
    (hp : rejectionPath (runHandler inp).path = true) :
    emptyEvidence (runHandler inp) := by
  unfold runHandler at hp ⊢
  cases hg : guardPhase inp with
  | error o =>
    try simp only [hg] at hp ⊢
    exact guardPhase_reject inp o hg hp
  | ok g =>
    try simp only [hg] at hp ⊢
    cases hr : routePhase inp g with
    | error o =>
      try simp only [hr] at hp ⊢
      have h2 : rejectionPath o.path = true := hp
      rw [routePhase_no_reject inp g o hr] at h2
      exact Bool.noConfusion h2
    | ok intent =>
      try simp only [hr] at hp ⊢
      cases hm : moderationPhase inp g with
      | error o =>
        try simp only [hm] at hp ⊢
        exact moderationPhase_reject inp g o hm hp
      | ok s2 =>
        try simp only [hm] at hp ⊢
        cases hd : dataPhase inp g intent s2 with
        | error o =>
          try simp only [hd] at hp ⊢
          exact dataPhase_reject inp g intent s2 o hd hp
        | ok u =>
          try simp only [hd] at hp ⊢
          cases hb : dbPhase inp g intent s2 with
          | error o =>
            try simp only [hb] at hp ⊢
            exact dbPhase_reject inp g intent s2 o hb hp
          | ok dbOk =>
            try simp only [hb] at hp ⊢
            exact genPhase_reject inp g intent s2 dbOk hp

/-- Witness for C9: a GET request is a method rejection, and its body
carries the three empty arrays. -/
theorem C9_witness :
    rejectionPath (runHandler { baseInput with method := "GET" }).path = true
    ∧ emptyEvidence (runHandler { baseInput with method := "GET" }) :=
  ⟨by decide, C9_rejection_empty_evidence _ (by decide)⟩

theorem guardPhase_locked (inp : HandlerInput) (en : StrikeEntry) (l : Nat)
    (hm : inp.method = "POST") (hs : inp.strike0 = some en)
    (hl : en.lockedUntil = some l) (hl0 : l ≠ 0) (hlt : inp.now < l) :
    guardPhase inp = Except.error (mkOut 200 none
      (some (safeErrorResponse (lockoutAnswer ((l - inp.now + 59999) / 60000))
        (some { noMeta with
          blocked := some true
          locked_until := some l
          strikes := some en.strikes })
        none))
      (some en) inp.rate0 false false false false false PathTag.lockout) := by
  have hred : checkStrikes (some en) inp.now
      = (match en.lockedUntil with
        | some l2 =>
          if l2 ≠ 0 ∧ inp.now < l2 then (⟨en.strikes, some l2⟩, some en)
          else if l2 ≠ 0 ∧ l2 ≤ inp.now then (⟨0, none⟩, some ⟨0, 0, none⟩)
          else (⟨en.strikes, none⟩, some en)
        | none => (⟨en.strikes, none⟩, some en)) := rfl
  have hcs : checkStrikes inp.strike0 inp.now = (⟨en.strikes, some l⟩, some en) := by
    rw [hs, hred, hl]
    exact if_pos ⟨hl0, hlt⟩
  unfold guardPhase
  rw [hm, hcs]
  rfl

/-- Claim C2: for every client, the third call to addStrike sets a lockout
expiry exactly 15 minutes (900000 ms) in the future; while the lockout is
unexpired every POST from that client short-circuits with the temporarily
locked message before intent classification and moderation, leaving the
strike entry unchanged; and on the first access at or after the expiry the
strike counter resets to 0 and the request passes the lockout gate. -/
theorem C2_strike_lockout_lifecycle (t1 t2 t3 : Nat) :
    (addStrike (addStrike (addStrike none t1).2 t2).2 t3).2
      = some ⟨3, t3, some (t3 + 900000)⟩
    ∧ (∀ inp : HandlerInput, inp.method = "POST"
        → inp.strike0 = some ⟨3, t3, some (t3 + 900000)⟩
        → inp.now < t3 + 900000 →
        (runHandler inp).path = PathTag.lockout
        ∧ (runHandler inp).status = 200
        ∧ (runHandler inp).strikeSt = some ⟨3, t3, some (t3 + 900000)⟩
        ∧ (runHandler inp).ranModeration = false
        ∧ (runHandler inp).ranClassify = false
        ∧ (runHandler inp).body = some (safeErrorResponse
            (lockoutAnswer ((t3 + 900000 - inp.now + 59999) / 60000))
            (some { noMeta with
              blocked := some true
              locked_until := some (t3 + 900000)
              strikes := some 3 })
            none))
    ∧ (∀ inp : HandlerInput, inp.method = "POST"
        → inp.strike0 = some ⟨3, t3, some (t3 + 900000)⟩
        → t3 + 900000 ≤ inp.now →
        checkStrikes inp.strike0 inp.now = (⟨0, none⟩, some ⟨0, 0, none⟩)
        ∧ (runHandler inp).path ≠ PathTag.lockout) := by
  refine ⟨rfl, ?_, ?_⟩
  · intro inp hm hs hlt
    have hg := guardPhase_locked inp ⟨3, t3, some (t3 + 900000)⟩ (t3 + 900000)
      hm hs rfl (by omega) hlt
    unfold runHandler
    rw [hg]
    exact ⟨rfl, rfl, rfl, rfl, rfl, rfl⟩
  · intro inp hm hs hexp
    have hne : t3 + 900000 ≠ 0 := by omega
    have hred : checkStrikes (some ⟨3, t3, some (t3 + 900000)⟩) inp.now
        = (if t3 + 900000 ≠ 0 ∧ inp.now < t3 + 900000 then
            (⟨3, some (t3 + 900000)⟩, some ⟨3, t3, some (t3 + 900000)⟩)
          else if t3 + 900000 ≠ 0 ∧ t3 + 900000 ≤ inp.now then
            (⟨0, none⟩, some ⟨0, 0, none⟩)
          else (⟨3, none⟩, some ⟨3, t3, some (t3 + 900000)⟩)) := rfl
    have hcs : checkStrikes inp.strike0 inp.now = (⟨0, none⟩, some ⟨0, 0, none⟩) := by
      rw [hs, hred, if_neg (show ¬(t3 + 900000 ≠ 0 ∧ inp.now < t3 + 900000) by omega),
        if_pos ⟨hne, hexp⟩]
    refine ⟨hcs, ?_⟩
    unfold runHandler
    cases hg : guardPhase inp with
    | error o =>
      try simp only [hg]
      exact guardPhase_not_lockout_of_clear inp o hg (by rw [hcs])
    | ok g =>
      try simp only [hg]
      cases hr : routePhase inp g with
      | error o =>
        try simp only [hr]
        exact routePhase_not_lockout inp g o hr
      | ok intent =>
        try simp only [hr]
        cases hmo : moderationPhase inp g with
        | error o =>
          try simp only [hmo]
          exact moderationPhase_not_lockout inp g o hmo
        | ok s2 =>
          try simp only [hmo]
          cases hd : dataPhase inp g intent s2 with
          | error o =>
            try simp only [hd]
            exact dataPhase_not_lockout inp g intent s2 o hd
          | ok u =>
            try simp only [hd]
            cases hb : dbPhase inp g intent s2 with
            | error o =>
              try simp only [hb]
              exact dbPhase_not_lockout inp g intent s2 o hb
            | ok dbOk =>
              try simp only [hb]
              exact genPhase_not_lockout inp g intent s2 dbOk

/-- Witness for C2: the lifecycle at concrete times 1000, 2000, 3000, with a
locked request at 500000 and an expired access at 903000. -/
theorem C2_witness :
    (addStrike (addStrike (addStrike none 1000).2 2000).2 3000).2
      = some ⟨3, 3000, some 903000⟩
    ∧ (runHandler { baseInput with
        strike0 := some ⟨3, 3000, some 903000⟩
        now := 500000 }).path = PathTag.lockout
    ∧ (runHandler { baseInput with
        strike0 := some ⟨3, 3000, some 903000⟩
        now := 500000 }).strikeSt = some ⟨3, 3000, some 903000⟩
    ∧ checkStrikes (some ⟨3, 3000, some 903000⟩) 903000 = (⟨0, none⟩, some ⟨0, 0, none⟩)
    ∧ (runHandler { baseInput with
        strike0 := some ⟨3, 3000, some 903000⟩
        now := 903000 }).path ≠ PathTag.lockout := by
  have h := C2_strike_lockout_lifecycle 1000 2000 3000
  refine ⟨h.1, ?_, ?_, ?_, ?_⟩
  · exact (h.2.1 _ rfl rfl (by decide)).1
  · exact (h.2.1 _ rfl rfl (by decide)).2.2.1
  · have := h.2.2 { baseInput with
      strike0 := some ⟨3, 3000, some 903000⟩
      now := 903000 } rfl rfl (by decide)
    exact this.1
  · have := h.2.2 { baseInput with
      strike0 := some ⟨3, 3000, some 903000⟩
      now := 903000 } rfl rfl (by decide)
    exact this.2

/-- Claim C10: a request rejected because the client is locked out does not
touch the rate-window entry, whereas a request rejected for a missing or
over-length question increments it, because the rate-limit check runs after
the lockout check but before body validation. -/
theorem C10_rate_counter_ordering :
    (∀ (inp : HandlerInput) (l : Nat), inp.method = "POST" →
      (checkStrikes inp.strike0 inp.now).1.lockedUntil = some l →
      (runHandler inp).rateSt = inp.rate0 ∧ (runHandler inp).path = PathTag.lockout)
    ∧ (∀ (inp : HandlerInput) (c R : Nat), inp.method = "POST" →
      (checkStrikes inp.strike0 inp.now).1.lockedUntil = none →
      inp.rate0 = some ⟨c, R⟩ → inp.now ≤ R → c + 1 ≤ 20 →
      inp.hasApiKey = true → trimS (inp.rawQuestion.getD "") = "" →
      (runHandler inp).rateSt = some ⟨c + 1, R⟩
      ∧ (runHandler inp).path = PathTag.missingQuestion)
    ∧ (∀ (inp : HandlerInput) (c R : Nat), inp.method = "POST" →
      (checkStrikes inp.strike0 inp.now).1.lockedUntil = none →
      inp.rate0 = some ⟨c, R⟩ → inp.now ≤ R → c + 1 ≤ 20 →
      inp.hasApiKey = true →
      (trimS (inp.rawQuestion.getD "") == "") = false →
      (trimS (inp.rawQuestion.getD "")).length > 800 →
      (runHandler inp).rateSt = some ⟨c + 1, R⟩
      ∧ (runHandler inp).path = PathTag.questionTooLong) := by
  refine ⟨?_, ?_, ?_⟩
  · intro inp l hm hcl
    rcases hc : checkStrikes inp.strike0 inp.now with ⟨⟨s1, lu⟩, st1⟩
    rw [hc] at hcl
    have hlu : lu = some l := hcl
    subst hlu
    unfold runHandler guardPhase
    rw [hm, hc]
    exact ⟨rfl, rfl⟩
  · intro inp c R hm hcl hr hwin hcap hkey hq
    rcases hc : checkStrikes inp.strike0 inp.now with ⟨⟨s1, lu⟩, st1⟩
    rw [hc] at hcl
    have hlu : lu = none := hcl
    subst hlu
    have hred : rateLimit (some ⟨c, R⟩) inp.now
        = (if inp.now > R then (RateResult.ok, some ⟨1, inp.now + 600000⟩)
          else if c + 1 > 20 then
            (RateResult.tooMany (max 1 ((R - inp.now + 999) / 1000)), some ⟨c + 1, R⟩)
          else (RateResult.ok, some ⟨c + 1, R⟩)) := rfl
    have hrl : rateLimit inp.rate0 inp.now = (RateResult.ok, some ⟨c + 1, R⟩) := by
      rw [hr, hred, if_neg (by omega), if_neg (by omega)]
    unfold runHandler guardPhase
    rw [hm, hc, hrl, hkey, hq]
    exact ⟨rfl, rfl⟩
  · intro inp c R hm hcl hr hwin hcap hkey hq1 hq2
    rcases hc : checkStrikes inp.strike0 inp.now with ⟨⟨s1, lu⟩, st1⟩
    rw [hc] at hcl
    have hlu : lu = none := hcl
    subst hlu
    have hred : rateLimit (some ⟨c, R⟩) inp.now
        = (if inp.now > R then (RateResult.ok, some ⟨1, inp.now + 600000⟩)
          else if c + 1 > 20 then
            (RateResult.tooMany (max 1 ((R - inp.now + 999) / 1000)), some ⟨c + 1, R⟩)
          else (RateResult.ok, some ⟨c + 1, R⟩)) := rfl
    have hrl : rateLimit inp.rate0 inp.now = (RateResult.ok, some ⟨c + 1, R⟩) := by
      rw [hr, hred, if_neg (by omega), if_neg (by omega)]
    unfold runHandler guardPhase
    rw [hm, hc, hrl, hkey, hq1]
    simp only [hq2]
    exact ⟨rfl, rfl⟩

/-- Witness for C10: a locked request at count 5 leaves the rate entry at 5;
a question-less request at count 5 moves it to 6. -/
theorem C10_witness :
    (runHandler { baseInput with
      strike0 := some ⟨3, 0, some 900000⟩
      rate0 := some ⟨5, 600000⟩ }).rateSt = some ⟨5, 600000⟩
    ∧ (runHandler { baseInput with
      rate0 := some ⟨5, 600000⟩ }).rateSt = some ⟨6, 600000⟩
    ∧ (runHandler { baseInput with
      rate0 := some ⟨5, 600000⟩ }).path = PathTag.missingQuestion := by
  have h := C10_rate_counter_ordering
  refine ⟨?_, ?_, ?_⟩
  · exact (h.1 { baseInput with
      strike0 := some ⟨3, 0, some 900000⟩
      rate0 := some ⟨5, 600000⟩ } 900000 rfl (by decide)).1
  · exact (h.2.1 { baseInput with rate0 := some ⟨5, 600000⟩ } 5 600000
      rfl (by decide) rfl (by decide) (by decide) rfl (by decide)).1
  · exact (h.2.1 { baseInput with rate0 := some ⟨5, 600000⟩ } 5 600000
      rfl (by decide) rfl (by decide) (by decide) rfl (by decide)).2

/-- Claim C8: the question exactly ok answers 200 with the canned
acknowledgement, empty evidence arrays, fast_path true, and neither the
database nor the generator is used. -/
theorem C8_ack_short_circuit (inp : HandlerInput) (hm : inp.method = "POST")
    (hcl : (checkStrikes inp.strike0 inp.now).1.lockedUntil = none)
    (hrl : (rateLimit inp.rate0 inp.now).1 = RateResult.ok)
    (hkey : inp.hasApiKey = true)
    (hq : inp.rawQuestion = some "ok") :
    (runHandler inp).status = 200
    ∧ (runHandler inp).path = PathTag.acknowledgement
    ∧ (runHandler inp).body = some ackResponse
    ∧ (runHandler inp).usedDb = false
    ∧ (runHandler inp).usedGenerator = false
    ∧ ackResponse.skills_confirmed = []
    ∧ ackResponse.evidence_links = []
    ∧ (ackResponse.meta.map (fun m => m.fast_path)).getD none = some true
    ∧ ackResponse.answer
      = "Glad to help — feel free to ask about projects, tools, or how Ryan approaches his work." := by
  rcases hc : checkStrikes inp.strike0 inp.now with ⟨⟨s1, lu⟩, st1⟩
  rw [hc] at hcl
  have hlu : lu = none := hcl
  subst hlu
  rcases hr2 : rateLimit inp.rate0 inp.now with ⟨rr, rate1⟩
  rw [hr2] at hrl
  have hrr : rr = RateResult.ok := hrl
  subst hrr
  have hguard : guardPhase inp = Except.ok ⟨"ok", st1, rate1⟩ := by
    unfold guardPhase
    rw [hm, hc, hr2, hkey, hq]
    rfl
  have hint : classifyIntent ((⟨"ok", st1, rate1⟩ : GuardOk).question) inp.pcPresent
      = Intent.ACKNOWLEDGEMENT := by
    cases hpc : inp.pcPresent
    · exact (by decide : classifyIntent "ok" false = Intent.ACKNOWLEDGEMENT)
    · exact (by decide : classifyIntent "ok" true = Intent.ACKNOWLEDGEMENT)
  have hroute : routePhase inp ⟨"ok", st1, rate1⟩
      = Except.error (mkOut 200 none (some ackResponse) st1 rate1
        false false false false true PathTag.acknowledgement) := by
    unfold routePhase
    rw [hint]
  unfold runHandler
  simp only [hguard, hroute]
  exact ⟨rfl, rfl, rfl, rfl, rfl, rfl, rfl, rfl, rfl⟩

/-- Witness for C8: the concrete request with question ok. -/
theorem C8_witness :
    (runHandler { baseInput with rawQuestion := some "ok" }).status = 200
    ∧ (runHandler { baseInput with rawQuestion := some "ok" }).usedDb = false
    ∧ (runHandler { baseInput with rawQuestion := some "ok" }).usedGenerator = false := by
  have h := C8_ack_short_circuit { baseInput with rawQuestion := some "ok" }
    rfl (by decide) (by decide) rfl rfl
  exact ⟨h.1, h.2.2.2.1, h.2.2.2.2.1⟩

theorem guardBenign (re : Option RateEntry) (t : Nat) :
    guardPhase (benignAt t none re)
      = (match rateLimit re t with
        | (RateResult.tooMany retry, re2) =>
          Except.error (mkOut 429 (some retry)
            (some (safeErrorResponse "Rate limit exceeded. Please try again shortly." none none))
            none re2 false false false false false PathTag.rateLimited)
        | (RateResult.ok, re2) =>
          Except.error (mkOut 400 none
            (some (safeErrorResponse "Missing required field: question" none none))
            none re2 false false false false false PathTag.missingQuestion)) := by
  unfold guardPhase
  rcases hr : rateLimit re t with ⟨rr, re2⟩
  have hrb : rateLimit (benignAt t none re).rate0 (benignAt t none re).now = (rr, re2) := hr
  rw [hrb]
  cases rr <;> rfl

theorem stepBenign (re : Option RateEntry) (t : Nat) :
    stepState (none, re) t = (none, (rateLimit re t).2) := by
  show ((runHandler (benignAt t none re)).strikeSt,
      (runHandler (benignAt t none re)).rateSt) = (none, (rateLimit re t).2)
  unfold runHandler
  rw [guardBenign re t]
  rcases hr : rateLimit re t with ⟨rr, re2⟩
  cases rr <;> rfl

theorem runSeq_benign (ts : List Nat) : ∀ re : Option RateEntry,
    runSeqStates ts (none, re)
      = (none, ts.foldl (fun r t => (rateLimit r t).2) re) := by
  induction ts with
  | nil => intro re; rfl
  | cons t ts ih =>
    intro re
    show runSeqStates ts (stepState (none, re) t) = _
    rw [stepBenign, ih ((rateLimit re t).2), List.foldl_cons]

theorem rateFold_window (ts : List Nat) : ∀ (c R : Nat), (∀ t ∈ ts, t ≤ R) →
    ts.foldl (fun r t => (rateLimit r t).2) (some ⟨c, R⟩)
      = some ⟨c + ts.length, R⟩ := by
  induction ts with
  | nil => intro c R _; simp
  | cons t ts ih =>
    intro c R h
    have ht : t ≤ R := h t (List.mem_cons_self t ts)
    have hred : rateLimit (some ⟨c, R⟩) t
        = (if t > R then (RateResult.ok, some ⟨1, t + 600000⟩)
          else if c + 1 > 20 then
            (RateResult.tooMany (max 1 ((R - t + 999) / 1000)), some ⟨c + 1, R⟩)
          else (RateResult.ok, some ⟨c + 1, R⟩)) := rfl
    have hstep : (rateLimit (some ⟨c, R⟩) t).2 = some ⟨c + 1, R⟩ := by
      rw [hred, if_neg (by omega)]
      by_cases h2 : c + 1 > 20
      · rw [if_pos h2]
      · rw [if_neg h2]
    rw [List.foldl_cons, hstep,
      ih (c + 1) R (fun x hx => h x (List.mem_cons_of_mem _ hx))]
    have hadd : c + 1 + ts.length = c + (t :: ts).length := by
      simp only [List.length_cons]
      omega
    rw [hadd]

/-- Claim C3: for a client that is not locked out, 21 requests inside one
10-minute rate window make the 21st answer 429 with a Retry-After strictly
positive and at most 600 seconds.  The first 20 requests are modelled as
question-less POSTs (so that no moderation strike can intervene); the 21st
is any POST carrying the threaded guard entries. -/
theorem C3_rate_limit_21st (t1 t21 : Nat) (mid : List Nat)
    (hlen : mid.length = 19)
    (hmid : ∀ t ∈ mid, t ≤ t1 + 600000)
    (h21a : t1 ≤ t21) (h21b : t21 ≤ t1 + 600000)
    (inp21 : HandlerInput) (hm : inp21.method = "POST")
    (hnow : inp21.now = t21)
    (hs : inp21.strike0 = (runSeqStates (t1 :: mid) (none, none)).1)
    (hr : inp21.rate0 = (runSeqStates (t1 :: mid) (none, none)).2) :
    (runHandler inp21).status = 429
    ∧ (runHandler inp21).path = PathTag.rateLimited
    ∧ ∃ retry, (runHandler inp21).retryAfter = some retry
        ∧ 0 < retry ∧ retry ≤ 600 := by
  have hseq : runSeqStates (t1 :: mid) (none, none)
      = (none, some ⟨20, t1 + 600000⟩) := by
    rw [runSeq_benign, List.foldl_cons]
    have h1 : (rateLimit none t1).2 = some ⟨1, t1 + 600000⟩ := rfl
    rw [h1, rateFold_window mid 1 (t1 + 600000) hmid, hlen]
  rw [hseq] at hs hr
  have hred : rateLimit (some ⟨20, t1 + 600000⟩) t21
      = (if t21 > t1 + 600000 then (RateResult.ok, some ⟨1, t21 + 600000⟩)
        else if 20 + 1 > 20 then
          (RateResult.tooMany (max 1 ((t1 + 600000 - t21 + 999) / 1000)),
            some ⟨20 + 1, t1 + 600000⟩)
        else (RateResult.ok, some ⟨20 + 1, t1 + 600000⟩)) := rfl
  have hrl : rateLimit inp21.rate0 inp21.now
      = (RateResult.tooMany (max 1 ((t1 + 600000 - t21 + 999) / 1000)),
        some ⟨21, t1 + 600000⟩) := by
    rw [hr, hnow, hred, if_neg (by omega), if_pos (by omega)]
  have hcs : checkStrikes inp21.strike0 inp21.now = (⟨0, none⟩, none) := by
    rw [hs]; rfl
  unfold runHandler guardPhase
  rw [hm, hcs, hrl]
  refine ⟨rfl, rfl, max 1 ((t1 + 600000 - t21 + 999) / 1000), rfl, ?_, ?_⟩
  · omega
  · have hx : (t1 + 600000 - t21 + 999) / 1000 ≤ 600 := by omega
    omega

theorem rankProjects_eval (candidates : List RankCand)
    (countsMap : String → Option Counts) (skill question : String)
    (hplat : isPlatformSkill skill = true)
    (hassist : isAssistantQuestion question = false)
    (hdbt : isDbtQuestion question = false) :
    rankProjects candidates countsMap (some skill) question
      = (candidates.map (scoreCandidate true false false countsMap)).insertionSort
          rankRel := by
  simp only [rankProjects, hplat, hassist, hdbt]

theorem scoreCandidate_dash (countsMap : String → Option Counts)
    (dash : RankCand) (cd : Counts)
    (hdslug : (dash.slug == "ryagent") = false)
    (hcd : countsMap dash.project_id = some cd)
    (hcdd : 0 < cd.dashboard_pages) (hcds : cd.skills_count = 6)
    (hdw : dash.proof_weight = some 4) :
    scoreCandidate true false false countsMap dash
      = { toRankCand := dash, rank_score := 146 } := by
  simp only [scoreCandidate, hcd, Option.getD_some, categorizeProject, hdslug,
    hdw, hcds, jsOrNat, hcdd, if_true, if_pos, Bool.false_eq_true, if_false]
  norm_num

theorem scoreCandidate_meta (countsMap : String → Option Counts)
    (meta : RankCand) (cm : Counts)
    (hmslug : meta.slug = "ryagent")
    (hcm : countsMap meta.project_id = some cm) (hcms : cm.skills_count = 10)
    (hmw : meta.proof_weight = some 5) :
    scoreCandidate true false false countsMap meta
      = { toRankCand := meta, rank_score := -140 } := by
  simp only [scoreCandidate, hcm, Option.getD_some, categorizeProject, hmslug,
    hmw, hcms, jsOrNat]
  simp
  try norm_num

/-- Claim C1: with a platform/BI skill and a question that mentions neither
the assistant nor dbt, a dashboard-category candidate with proof_weight 4 and
skills_count 6 scores 100 + 40 + 6 = 146, the ryagent meta candidate with
proof_weight 5 and skills_count 10 scores 0 + 50 + 10 - 200 = -140 (the
strong platform penalty applies because neither exemption holds), and in the
output of rankProjects every occurrence of the dashboard entry precedes every
occurrence of the meta entry. -/
theorem C1_platform_meta_penalty (candidates : List RankCand)
    (countsMap : String → Option Counts) (skill question : String)
    (dash meta : RankCand) (cd cm : Counts)
    (hplat : isPlatformSkill skill = true)
    (hassist : isAssistantQuestion question = false)
    (hdbt : isDbtQuestion question = false)
    (hdmem : dash ∈ candidates) (hmmem : meta ∈ candidates)
    (hdslug : (dash.slug == "ryagent") = false)
    (hmslug : meta.slug = "ryagent")
    (hcd : countsMap dash.project_id = some cd)
    (hcdd : 0 < cd.dashboard_pages) (hcds : cd.skills_count = 6)
    (hdw : dash.proof_weight = some 4)
    (hcm : countsMap meta.project_id = some cm) (hcms : cm.skills_count = 10)
    (hmw : meta.proof_weight = some 5) :
    (scoreCandidate true false false countsMap dash).rank_score = 146
    ∧ (scoreCandidate true false false countsMap meta).rank_score = -140
    ∧ scoreCandidate true false false countsMap dash
        ∈ rankProjects candidates countsMap (some skill) question
    ∧ scoreCandidate true false false countsMap meta
        ∈ rankProjects candidates countsMap (some skill) question
    ∧ ∀ (i j : Fin (rankProjects candidates countsMap (some skill) question).length),
        (rankProjects candidates countsMap (some skill) question).get i
          = scoreCandidate true false false countsMap dash →
        (rankProjects candidates countsMap (some skill) question).get j
          = scoreCandidate true false false countsMap meta →
        (i : Nat) < (j : Nat) := by
  have hds := scoreCandidate_dash countsMap dash cd hdslug hcd hcdd hcds hdw
  have hms := scoreCandidate_meta countsMap meta cm hmslug hcm hcms hmw
  have hout := rankProjects_eval candidates countsMap skill question
    hplat hassist hdbt
  have hperm : List.Perm
      ((candidates.map (scoreCandidate true false false countsMap)).insertionSort rankRel)
      (candidates.map (scoreCandidate true false false countsMap)) :=
    List.perm_insertionSort rankRel _
  have hsorted : ((candidates.map (scoreCandidate true false false countsMap)).insertionSort
      rankRel).Sorted rankRel := List.sorted_insertionSort rankRel _
  refine ⟨by rw [hds], by rw [hms], ?_, ?_, ?_⟩
  · rw [hout]
    exact hperm.mem_iff.mpr (List.mem_map_of_mem _ hdmem)
  · rw [hout]
    exact hperm.mem_iff.mpr (List.mem_map_of_mem _ hmmem)
  · intro i j hi hj
    by_contra hlt
    push_neg at hlt
    rcases Nat.lt_or_ge (j : Nat) (i : Nat) with hji | hij
    · have hrel := List.Sorted.rel_get_of_lt (hout ▸ hsorted) hji
      rw [hi, hj, hds, hms] at hrel
      simp only [rankRel] at hrel
      norm_num at hrel
    · have hij2 : (i : Nat) = (j : Nat) := le_antisymm hij hlt
      have : scoreCandidate true false false countsMap dash
          = scoreCandidate true false false countsMap meta := by
        rw [← hi, ← hj]
        congr 1
        exact Fin.ext hij2
      rw [hds, hms] at this
      have := congrArg Ranked.rank_score this
      norm_num at this

/-- Witness for C1: two concrete candidates, the skill power bi, the
question which dashboards did ryan build. -/
theorem C1_witness :
    (scoreCandidate true false false c1CountsMap c1Dash).rank_score = 146
    ∧ (scoreCandidate true false false c1CountsMap c1Meta).rank_score = -140
    ∧ scoreCandidate true false false c1CountsMap c1Dash
        ∈ rankProjects [c1Meta, c1Dash] c1CountsMap (some "power bi")
          "which dashboards did ryan build" := by
  have h := C1_platform_meta_penalty [c1Meta, c1Dash] c1CountsMap "power bi"
    "which dashboards did ryan build" c1Dash c1Meta ⟨2, 0, 6⟩ ⟨0, 3, 10⟩
    (by decide) (by decide) (by decide) (by decide) (by decide) (by decide)
    (by decide) (by decide) (by decide) (by decide) (by decide) (by decide)
    (by decide) (by decide)
  exact ⟨h.1, h.2.1, h.2.2.1⟩

theorem score_one_of_matches (lowerQ : String) (s : SkillRow)
    (h : skillWhereMatches lowerQ s = true) : skillMatchScore lowerQ s = 1 := by
  unfold skillMatchScore
  unfold skillWhereMatches at h
  rcases Bool.or_eq_true_iff.mp h with h1 | h2
  · rw [h1]
    cases skillAliasMatches lowerQ s <;> rfl
  · rw [h2]
    cases skillNameMatches lowerQ s <;> rfl

theorem pickLongestName_mem : ∀ (l : List SkillRow) (a : SkillRow),
    pickLongestName l = some a → a ∈ l := by
  intro l
  induction l with
  | nil => intro a h; exact Option.noConfusion h
  | cons r rs ih =>
    intro a h
    rw [pickLongestName] at h
    cases hp : pickLongestName rs with
    | none =>
      simp only [hp] at h
      injection h with h2
      exact h2 ▸ List.mem_cons_self r rs
    | some b =>
      simp only [hp] at h
      by_cases hlt : r.name.length < b.name.length
      · rw [if_pos hlt] at h
        injection h with h2
        exact List.mem_cons_of_mem _ (h2 ▸ ih b hp)
      · rw [if_neg hlt] at h
        injection h with h2
        exact h2 ▸ List.mem_cons_self r rs

theorem pickTop_eq_pickLongest (lowerQ : String) :
    ∀ (l : List SkillRow), (∀ s ∈ l, skillMatchScore lowerQ s = 1) →
    pickTop lowerQ l = pickLongestName l := by
  intro l
  induction l with
  | nil => intro _; rfl
  | cons r rs ih =>
    intro h
    have hr : skillMatchScore lowerQ r = 1 := h r (List.mem_cons_self r rs)
    have hrs : ∀ s ∈ rs, skillMatchScore lowerQ s = 1 :=
      fun s hs => h s (List.mem_cons_of_mem _ hs)
    rw [pickTop, pickLongestName, ih hrs]
    cases hp : pickLongestName rs with
    | none => rfl
    | some a =>
      have ha : skillMatchScore lowerQ a = 1 := hrs a (pickLongestName_mem rs a hp)
      have hb : betterSkill lowerQ r a = decide (r.name.length < a.name.length) := by
        unfold betterSkill
        rw [hr, ha]
        simp
      show (if betterSkill lowerQ r a = true then some a else some r)
          = (if r.name.length < a.name.length then some a else some r)
      rw [hb]
      by_cases hlt : r.name.length < a.name.length
      · simp [hlt]
      · simp [hlt]

/-- Counterexample to C5.  With a skill sql (no aliases) and a skill
power query (alias pq), the question pq sql contains the name sql and
the alias pq, yet the query returns power query: match_score is 1 for
every row the WHERE clause keeps, so the order-by never prefers a name
match over an alias match and falls through to name length, where
power query beats sql.  The spec-modelled selector returns sql. -/
theorem C5_counterexample :
    detectSkillQuery c5Skills "pq sql" = some "power query"
    ∧ specDetectSkillC5 c5Skills "pq sql" = some "sql"
    ∧ detectSkillQuery c5Skills "pq sql" ≠ specDetectSkillC5 c5Skills "pq sql" := by
  refine ⟨by decide, by decide, by decide⟩

/-- Amended C5: every row kept by the WHERE clause of the skill-match query
has match_score exactly 1 (a name hit and an alias hit are indistinguishable),
so the query selects, among all skills whose name or any alias is contained
case-insensitively in the question, one whose canonical name has maximal
length, resolving ties in favour of the earlier row; there is no preference
of name containment over alias containment. -/
theorem C5_amended_name_length_selection (skills : List SkillRow)
    (lowerQ : String) :
    ((skills.filter (skillWhereMatches lowerQ)).all
      (fun s => skillMatchScore lowerQ s == 1)) = true
    ∧ detectSkillQuery skills lowerQ
        = (pickLongestName (skills.filter (skillWhereMatches lowerQ))).map
            (fun r => r.name) := by
  have hall : ∀ s ∈ skills.filter (skillWhereMatches lowerQ),
      skillMatchScore lowerQ s = 1 :=
    fun s hs => score_one_of_matches lowerQ s (List.of_mem_filter hs)
  constructor
  · exact List.all_eq_true.mpr (fun s hs => beq_iff_eq.mpr (hall s hs))
  · simp only [detectSkillQuery]
    rw [pickTop_eq_pickLongest lowerQ _ hall]
    cases hp : pickLongestName (skills.filter (skillWhereMatches lowerQ)) with
    | none => rfl
    | some top =>
      have ht : skillMatchScore lowerQ top = 1 :=
        hall top (pickLongestName_mem _ top hp)
      show (if skillMatchScore lowerQ top > 0 then some top.name else none)
          = some top.name
      rw [if_pos (by omega)]

/-- Counterexample to C4.  When skill-first retrieval matched (here: skill
dax, only the ryagent project), the trigram project search was already
skipped, and the only-ryagent discard later empties the candidate set
without re-running it: the request ends with no projects (finalIds empty,
ranTrigram false).  Had the skill-first stage found nothing, the same
request would have run the trigram search and selected its project. -/
theorem C4_counterexample :
    (stageBCE c4Inp c4Question).candidatesE = []
    ∧ (stageBCE c4Inp c4Question).finalIds = []
    ∧ (stageBCE c4Inp c4Question).skillFirstMatch = true
    ∧ (stageBCE c4Inp c4Question).ranTrigram = false
    ∧ (stageBCE c4InpNoRows c4Question).ranTrigram = true
    ∧ (stageBCE c4InpNoRows c4Question).finalIds = ["tp1"]
    ∧ (stageBCE c4Inp c4Question).finalIds
        ≠ (stageBCE c4InpNoRows c4Question).finalIds := by
  decide

/-- Amended C4: if the skill-first candidate set is non-empty, consists only
of ryagent, the question is not about the assistant, and the detected skill
is not in the ryagent-is-proof allow-list, then the candidate set, the final
project ids and the stage trace are all discarded to empty, but retrieval
does NOT fall through to the trigram project search: that stage ran exactly
when the skill-first stage did not match (ranTrigram = false here), and the
skill-derived fallback branch is also skipped, so the request continues with
no retrieved projects at all. -/
theorem C4_amended_discard_no_fallthrough (inp : HandlerInput)
    (question d : String)
    (hsk : detectSkillFull inp (lowerS question) = some d)
    (hok : inp.skillFirstQueryOk = true)
    (hrows : inp.skillProjectRows.isEmpty = false)
    (hcne : (skillFirstCands inp d question).isEmpty = false)
    (hall : ∀ p ∈ skillFirstCands inp d question, p.slug = "ryagent")
    (hassist : isAssistantQuestion question = false)
    (hproof : ryagentIsProofSkills.any
      (fun s => containsS (lowerS d) (lowerS s)) = false) :
    stageBCE inp question
      = ⟨some d, true, false, [], [], [],
          dedupById (inp.skillTrigramRows ++ inp.skillAliasRows)⟩ := by
  have hfilter : (skillFirstCands inp d question).filter
      (fun p => p.slug ≠ "ryagent") = [] := by
    rw [List.filter_eq_nil_iff]
    intro p hp
    simp [hall p hp]
  simp [stageBCE, hsk, hok, hrows, hcne, hfilter, hassist, hproof]
  exact hall

/-- Witness for the amended C4 theorem at the concrete counterexample
state. -/
theorem C4_amended_witness :
    stageBCE c4Inp c4Question
      = ⟨some "dax", true, false, [], [], [], []⟩ := by
  have h := C4_amended_discard_no_fallthrough c4Inp c4Question "dax"
    (by decide) (by decide) (by decide) (by decide) (by decide) (by decide)
    (by decide)
  rw [h]
  have hd : dedupById (c4Inp.skillTrigramRows ++ c4Inp.skillAliasRows) = [] := by
    show dedupById ([] ++ []) = []
    simp [dedupById]
  rw [hd]

/-- Witness for C3: 20 requests at time 0 fill the window; the 21st, at
300000 ms, is refused. -/
theorem C3_witness :
    (runHandler { baseInput with
      now := 300000
      rate0 := some ⟨20, 600000⟩ }).status = 429
    ∧ ∃ retry, (runHandler { baseInput with
      now := 300000
      rate0 := some ⟨20, 600000⟩ }).retryAfter = some retry
      ∧ 0 < retry ∧ retry ≤ 600 := by
  have h := C3_rate_limit_21st 0 300000 (List.replicate 19 0)
    (by decide) (by decide) (by decide) (by decide)
    { baseInput with
      now := 300000
      rate0 := some ⟨20, 600000⟩ }
    rfl rfl (by decide) (by decide)
  exact ⟨h.1, h.2.2⟩

theorem dbTrace_good (inp : HandlerInput) (q : String) :
    goodTrace (dbTrace inp q) :=
  goodTrace_dedup_take _

theorem traceOk_guard (inp : HandlerInput) (o : Outcome)
    (h : guardPhase inp = Except.error o) : traceOk o := by
  simp only [guardPhase] at h
  repeat' split at h
  all_goals
    first
      | exact Except.noConfusion h
      | · injection h with h2
          subst h2
          simp [traceOk, mkOut, safeErrorResponse, shortCircuitPath]

theorem traceOk_pageCtx (inp : HandlerInput) (g : GuardOk) :
    traceOk (pageCtxOutcome inp g) := by
  simp only [pageCtxOutcome]
  repeat' split
  all_goals simp [traceOk, mkOut, shortCircuitPath]

theorem traceOk_personality (inp : HandlerInput) (g : GuardOk) :
    traceOk (personalityOutcome inp g) := by
  simp only [personalityOutcome]
  repeat' split
  all_goals simp [traceOk, mkOut, shortCircuitPath]

theorem traceOk_route (inp : HandlerInput) (g : GuardOk) (o : Outcome)
    (h : routePhase inp g = Except.error o) : traceOk o := by
  simp only [routePhase] at h
  repeat' split at h
  all_goals
    first
      | exact Except.noConfusion h
      | · injection h with h2
          subst h2
          first
            | exact traceOk_pageCtx inp g
            | exact traceOk_personality inp g
            | simp [traceOk, mkOut, ackResponse, madisonResponse,
                workStyleResponse, personalRefusalResponse, shortCircuitPath]

theorem traceOk_moderation (inp : HandlerInput) (g : GuardOk) (o : Outcome)
    (h : moderationPhase inp g = Except.error o) : traceOk o := by
  simp only [moderationPhase] at h
  repeat' split at h
  all_goals
    first
      | exact Except.noConfusion h
      | · injection h with h2
          subst h2
          simp [traceOk, mkOut, safeErrorResponse, shortCircuitPath]

theorem getFastPathResponse_trace (q : String) (r : AskResponse)
    (h : getFastPathResponse q = some r) : r.trace = none := by
  simp only [getFastPathResponse] at h
  repeat' split at h
  all_goals
    first
      | exact Option.noConfusion h
      | · injection h with h2
          subst h2
          rfl

theorem traceOk_data (inp : HandlerInput) (g : GuardOk) (intent : Intent)
    (s2 : Option StrikeEntry) (o : Outcome)
    (h : dataPhase inp g intent s2 = Except.error o) : traceOk o := by
  simp only [dataPhase] at h
  repeat' split at h
  all_goals
    first
      | exact Except.noConfusion h
      | · injection h with h2
          subst h2
          first
            | · rename_i resp heq
                have ht := getFastPathResponse_trace _ _ heq
                simp [traceOk, mkOut, shortCircuitPath, ht]
            | simp [traceOk, mkOut, safeErrorResponse, akuvoResponse,
                shortCircuitPath]

theorem traceOk_dashboard (inp : HandlerInput) (g : GuardOk) (intent : Intent)
    (s2 : Option StrikeEntry) : traceOk (dashboardOutcome inp g intent s2) := by
  have hg := dbTrace_good inp g.question
  simp only [dashboardOutcome, traceOk, mkOut, shortCircuitPath]
  simp only [beq_self_eq_true, Bool.true_or, Bool.or_true, if_true]
  exact ⟨dbTrace inp g.question, _, rfl, hg.1, hg.2⟩

theorem traceOk_fabric (inp : HandlerInput) (g : GuardOk) (intent : Intent)
    (s2 : Option StrikeEntry) : traceOk (fabricOutcome inp g intent s2) := by
  have hg := dbTrace_good inp g.question
  simp only [fabricOutcome, traceOk, mkOut, shortCircuitPath]
  simp only [beq_self_eq_true, Bool.true_or, Bool.or_true, if_true]
  exact ⟨dbTrace inp g.question, _, rfl, hg.1, hg.2⟩

theorem traceOk_canonical (inp : HandlerInput) (g : GuardOk) (intent : Intent)
    (s2 : Option StrikeEntry) (sm : MatrixSkill) :
    traceOk (canonicalOutcome inp g intent s2 sm) := by
  have hg := dbTrace_good inp g.question
  simp only [canonicalOutcome, traceOk, mkOut, shortCircuitPath]
  simp only [beq_self_eq_true, Bool.true_or, Bool.or_true, if_true]
  exact ⟨dbTrace inp g.question, _, rfl, hg.1, hg.2⟩

theorem traceOk_db (inp : HandlerInput) (g : GuardOk) (intent : Intent)
    (s2 : Option StrikeEntry) (o : Outcome)
    (h : dbPhase inp g intent s2 = Except.error o) : traceOk o := by
  simp only [dbPhase] at h
  repeat' split at h
  all_goals
    first
      | exact Except.noConfusion h
      | · injection h with h2
          subst h2
          first
            | exact traceOk_dashboard inp g intent s2
            | exact traceOk_fabric inp g intent s2
            | · rename_i sm hsm hproof
                exact traceOk_canonical inp g intent s2 sm
            | simp [traceOk, mkOut, dbFailBody, shortCircuitPath]

theorem dbPhase_ok_trace (inp : HandlerInput) (g : GuardOk) (intent : Intent)
    (s2 : Option StrikeEntry) (dbOk : DbOk)
    (h : dbPhase inp g intent s2 = Except.ok dbOk) : goodTrace dbOk.trace := by
  simp only [dbPhase] at h
  repeat' split at h
  all_goals
    first
      | exact Except.noConfusion h
      | · injection h with h2
          subst h2
          first
            | exact goodTrace_nil
            | exact dbTrace_good inp g.question

theorem goodTrace_ite (c : Prop) [Decidable c] (t : List String)
    (h : goodTrace t) : goodTrace (if c then [] else t) := by
  split
  · exact ⟨List.nodup_nil, by simp⟩
  · exact h

theorem traceOk_gen (inp : HandlerInput) (g : GuardOk) (intent : Intent)
    (s2 : Option StrikeEntry) (dbOk : DbOk) (hg : goodTrace dbOk.trace) :
    traceOk (genPhase inp g intent s2 dbOk) := by
  unfold genPhase
  repeat' split
  all_goals
    first
      | · simp [traceOk, mkOut, safeErrorResponse, shortCircuitPath]
          done
      | · simp only [traceOk, mkOut]
          rw [if_neg (by decide)]
          exact goodTrace_ite _ _ hg

theorem guardPhase_not_genOk (inp : HandlerInput) (o : Outcome)
    (h : guardPhase inp = Except.error o) :
    o.path ≠ PathTag.generatorOk := by
  simp only [guardPhase] at h
  repeat' split at h
  all_goals
    first
      | exact Except.noConfusion h
      | · injection h with h2
          subst h2
          simp [mkOut]

theorem routePhase_not_genOk (inp : HandlerInput) (g : GuardOk) (o : Outcome)
    (h : routePhase inp g = Except.error o) :
    o.path ≠ PathTag.generatorOk := by
  simp only [routePhase, pageCtxOutcome, personalityOutcome] at h
  repeat' split at h
  all_goals
    first
      | exact Except.noConfusion h
      | · injection h with h2
          subst h2
          simp [mkOut]

theorem moderationPhase_not_genOk (inp : HandlerInput) (g : GuardOk) (o : Outcome)
    (h : moderationPhase inp g = Except.error o) :
    o.path ≠ PathTag.generatorOk := by
  simp only [moderationPhase] at h
  repeat' split at h
  all_goals
    first
      | exact Except.noConfusion h
      | · injection h with h2
          subst h2
          simp [mkOut]

theorem dataPhase_not_genOk (inp : HandlerInput) (g : GuardOk) (intent : Intent)
    (s2 : Option StrikeEntry) (o : Outcome)
    (h : dataPhase inp g intent s2 = Except.error o) :
    o.path ≠ PathTag.generatorOk := by
  simp only [dataPhase] at h
  repeat' split at h
  all_goals
    first
      | exact Except.noConfusion h
      | · injection h with h2
          subst h2
          simp [mkOut]

theorem dbPhase_not_genOk (inp : HandlerInput) (g : GuardOk) (intent : Intent)
    (s2 : Option StrikeEntry) (o : Outcome)
    (h : dbPhase inp g intent s2 = Except.error o) :
    o.path ≠ PathTag.generatorOk := by
  simp only [dbPhase] at h
  repeat' split at h
  all_goals
    first
      | exact Except.noConfusion h
      | · injection h with h2
          subst h2
          simp [mkOut, dashboardOutcome, fabricOutcome, canonicalOutcome]

theorem genPhase_trace_of_marker (inp : HandlerInput) (g : GuardOk)
    (intent : Intent) (s2 : Option StrikeEntry) (dbOk : DbOk) :
    ∀ b, (genPhase inp g intent s2 dbOk).body = some b →
      (containsS (lowerS b.answer) "cannot confirm"
        || containsS (lowerS b.answer) "not certain"
        || containsS (lowerS b.answer) "not sure") = true →
      b.trace = some [] := by
  unfold genPhase
  repeat' split
  all_goals intro b hb hm
  all_goals simp only [mkOut] at hb
  all_goals injection hb with hb2
  all_goals subst hb2
  all_goals
    first
      | rfl
      | · show some _ = some []
          refine congrArg some ?_
          exact if_pos hm
      | exact absurd hm (by assumption)

/-- Counterexample to C6.  A request that takes the dashboard-density short
circuit returns a trace of 5 lines (the capped 4-line trace plus the
appended dashboard line), and when the skills-matrix summary of the matched
skill carries the marker not sure, the answer contains an uncertainty
marker while the trace is non-empty: the marker-based suppression only runs
on the generator path. -/
theorem C6_counterexample :
    ((runHandler c6Inp).body.map (fun b => b.trace.map List.length))
      = some (some 5)
    ∧ ((runHandler c6Inp).body.map
        (fun b => containsS (lowerS b.answer) "not sure")) = some true
    ∧ ((runHandler c6Inp).body.map (fun b => b.trace)) ≠ some (some []) := by
  refine ⟨by decide, by decide, by decide⟩

/-- Amended C6: on the three database short-circuit paths (dashboard
density, Microsoft Fabric fallback, canonical skillsets fallback) the trace
is the deduplicated trace capped at 4 lines with exactly one extra line
appended, so it can hold up to 5 lines; on every other path a present trace
has no duplicate lines and at most 4 lines; and the suppression of the
trace for answers containing an uncertainty marker holds exactly on the
generator path: a generator-path response whose answer contains cannot
confirm, not certain or not sure has trace equal to the empty array. -/
theorem C6_amended_trace_cap (inp : HandlerInput) :
    traceOk (runHandler inp)
    ∧ (∀ b, (runHandler inp).path = PathTag.generatorOk →
        (runHandler inp).body = some b →
        (containsS (lowerS b.answer) "cannot confirm"
          || containsS (lowerS b.answer) "not certain"
          || containsS (lowerS b.answer) "not sure") = true →
        b.trace = some []) := by
  cases hg : guardPhase inp with
  | error o =>
    have hrun : runHandler inp = o := by
      unfold runHandler
      simp only [hg]
    rw [hrun]
    exact ⟨traceOk_guard inp o hg,
      fun b hpath _ _ => absurd hpath (guardPhase_not_genOk inp o hg)⟩
  | ok g =>
    cases hr : routePhase inp g with
    | error o =>
      have hrun : runHandler inp = o := by
        unfold runHandler
        simp only [hg, hr]
      rw [hrun]
      exact ⟨traceOk_route inp g o hr,
        fun b hpath _ _ => absurd hpath (routePhase_not_genOk inp g o hr)⟩
    | ok intent =>
      cases hmod : moderationPhase inp g with
      | error o =>
        have hrun : runHandler inp = o := by
          unfold runHandler
          simp only [hg, hr, hmod]
        rw [hrun]
        exact ⟨traceOk_moderation inp g o hmod,
          fun b hpath _ _ => absurd hpath (moderationPhase_not_genOk inp g o hmod)⟩
      | ok strike2 =>
        cases hdata : dataPhase inp g intent strike2 with
        | error o =>
          have hrun : runHandler inp = o := by
            unfold runHandler
            simp only [hg, hr, hmod, hdata]
          rw [hrun]
          exact ⟨traceOk_data inp g intent strike2 o hdata,
            fun b hpath _ _ =>
              absurd hpath (dataPhase_not_genOk inp g intent strike2 o hdata)⟩
        | ok u =>
          cases hdb : dbPhase inp g intent strike2 with
          | error o =>
            have hrun : runHandler inp = o := by
              unfold runHandler
              simp only [hg, hr, hmod, hdata, hdb]
            rw [hrun]
            exact ⟨traceOk_db inp g intent strike2 o hdb,
              fun b hpath _ _ =>
                absurd hpath (dbPhase_not_genOk inp g intent strike2 o hdb)⟩
          | ok dbOk =>
            have hrun : runHandler inp = genPhase inp g intent strike2 dbOk := by
              unfold runHandler
              simp only [hg, hr, hmod, hdata, hdb]
            rw [hrun]
            exact ⟨traceOk_gen inp g intent strike2 dbOk
                (dbPhase_ok_trace inp g intent strike2 dbOk hdb),
              fun b _ hb hm =>
                genPhase_trace_of_marker inp g intent strike2 dbOk b hb hm⟩

/-- Witness for the amended C6 theorem at the counterexample request. -/
theorem C6_amended_witness : traceOk (runHandler c6Inp) :=
  (C6_amended_trace_cap c6Inp).1

/-- Counterexample to C7.  When the connectivity probe at the start of the
database section fails, the request is aborted with a 500 Database
connection error response and the generator is never called; only failures
of the queries after a successful probe degrade to the JSON fallback (null
payload, generator called, sources_used = fallback:canonical_skillsets). -/
theorem C7_counterexample :
    (runHandler c7Inp).status = 500
    ∧ (runHandler c7Inp).path = PathTag.dbProbeFail
    ∧ (runHandler c7Inp).usedGenerator = false
    ∧ (runHandler c7Inp).body = some dbFailBody
    ∧ (runHandler c7DegradedInp).status = 200
    ∧ (runHandler c7DegradedInp).path = PathTag.generatorOk
    ∧ (runHandler c7DegradedInp).usedGenerator = true
    ∧ ((runHandler c7DegradedInp).body.map
        (fun b => b.meta.map (fun m => m.sources_used)))
      = some (some (some ["fallback:canonical_skillsets"])) := by
  decide

/-- Amended C7: the probe at the start of the database section is the one
retrieval stage that does NOT degrade — its failure aborts the request with
a 500 error response before any retrieval runs — while a failure of any
query after a successful probe is degraded by the enclosing catch to a null
payload and empty trace, after which the generator is still called and the
response meta records the canonical-skillsets JSON fallback as the evidence
source. -/
theorem C7_amended_probe_aborts (inp : HandlerInput) (g : GuardOk)
    (intent : Intent) (s2 : Option StrikeEntry)
    (hdb : inp.hasDb = true) :
    (inp.dbProbeOk = false →
      dbPhase inp g intent s2
        = Except.error (mkOut 500 none (some dbFailBody) s2 g.rate1
            true false false true true PathTag.dbProbeFail))
    ∧ (inp.dbProbeOk = true → inp.dbQueriesOk = false →
      dbPhase inp g intent s2 = Except.ok ⟨none, [], false⟩)
    ∧ (∀ p, inp.genOk = true → inp.parsed = some p →
        (genPhase inp g intent s2 ⟨none, [], false⟩).status = 200
        ∧ (genPhase inp g intent s2 ⟨none, [], false⟩).usedGenerator = true
        ∧ ∃ b, (genPhase inp g intent s2 ⟨none, [], false⟩).body = some b
            ∧ b.meta = some { noMeta with
                intent := some intent
                sources_used := some ["fallback:canonical_skillsets"] }) := by
  refine ⟨?_, ?_, ?_⟩
  · intro hprobe
    simp [dbPhase, hdb, hprobe]
  · intro hprobe hq
    simp [dbPhase, hdb, hprobe, hq]
  · intro p hgen hp
    simp only [genPhase, hgen, hp]
    exact ⟨rfl, rfl, _, rfl, rfl⟩

/-- Witness for the amended C7 theorem: the probe-failure input aborts with
the 500 body. -/
theorem C7_amended_witness :
    dbPhase c7Inp c7G Intent.PROFESSIONAL none
      = Except.error (mkOut 500 none (some dbFailBody) none c7G.rate1
          true false false true true PathTag.dbProbeFail) :=
  (C7_amended_probe_aborts c7Inp c7G Intent.PROFESSIONAL none (by decide)).1
    (by decide)

end PV
